import Mathlib

/-!
Shallow embedding of the gesture-recognition engine of this repository.

The embedded code comes from two iterations of the detector class:
* `src/src/utils/GestureDetector.ts` — registration, static pose matching,
  gesture selection, debounce/emission, and the sequence matcher;
* `src/unnamed/part_004` (second class in the file, from line 501) — the
  motion position buffer, the activity state machine and the motion
  trajectory classifiers.

JavaScript numbers are modelled by `ℝ`; `Math.sqrt` by `Real.sqrt`;
`Math.atan2` by `Complex.arg`; nullable fields by `Option`.  The
`MotionPattern` enumeration merges the values used by both iterations
(the spec lists it as one closed enumeration).
-/

noncomputable section

namespace CursorTng

/-- 3D point, `Point3D` of `src/src/types/gesture.ts`. -/
structure Point3D where
  x : ℝ
  y : ℝ
  z : ℝ

def Point3D.zero : Point3D := ⟨0, 0, 0⟩

/-- Handedness of a detected hand sample. -/
inductive Handedness
  | left
  | right
deriving DecidableEq

/-- The `handRequired` field of a gesture: `'left' | 'right' | 'any'`. -/
inductive HandRequired
  | any
  | left
  | right
deriving DecidableEq

/-- Embeds a sample's handedness into the `HandRequired` value it equals. -/
def handednessToReq : Handedness → HandRequired
  | Handedness.left => HandRequired.left
  | Handedness.right => HandRequired.right

/-- The `MotionPattern` enumeration (union of the values of both iterations
of `types/gesture.ts`; the spec lists it as a single closed enumeration). -/
inductive MotionPattern
  | NONE
  | CIRCLE_CLOCKWISE
  | CIRCLE_COUNTERCLOCKWISE
  | VERTICAL_UP_DOWN
  | HORIZONTAL_LEFT_RIGHT
  | FORWARD_THRUST
  | WAVE
  | ZIGZAG
  | TWO_HAND_CLAP
  | V_SHAPE
  | W_SHAPE
deriving DecidableEq

/-- `HandPose` of `src/src/types/gesture.ts`. -/
structure HandPose where
  timestamp : ℝ
  landmarks : List Point3D
  handedness : Handedness
  score : ℝ

/-- `Gesture` of `src/src/types/gesture.ts` (the fields the matcher reads). -/
structure Gesture where
  id : String
  name : String
  threshold : ℝ
  fingerPositions : List ℝ
  motionPattern : Option MotionPattern
  handRequired : HandRequired

/-- `GestureSequence` of `src/src/types/gesture.ts` (the fields the matcher
reads). -/
structure GestureSequence where
  id : String
  name : String
  gestures : List Gesture

/-- The truthiness test `gesture.motionPattern && gesture.motionPattern !==
MotionPattern.NONE` of `matchGesture`. -/
def isMotionTyped (g : Gesture) : Bool :=
  match g.motionPattern with
  | some mp => mp ≠ MotionPattern.NONE
  | none => false

/-- `distance3D` of `GestureDetector.ts` (identical in both iterations). -/
def distance3D (p1 p2 : Point3D) : ℝ :=
  Real.sqrt ((p1.x - p2.x) * (p1.x - p2.x) + (p1.y - p2.y) * (p1.y - p2.y) +
    (p1.z - p2.z) * (p1.z - p2.z))

/-- `calculatePalmCenter` of `GestureDetector.ts`. -/
def calculatePalmCenter (pose : HandPose) : Point3D :=
  let wrist := pose.landmarks.getD 0 Point3D.zero
  let middleBase := pose.landmarks.getD 9 Point3D.zero
  ⟨(wrist.x + middleBase.x) / 2, (wrist.y + middleBase.y) / 2,
    (wrist.z + middleBase.z) / 2⟩

/-- The `fingerIndices` table of `calculateFingerExtensions`. -/
def fingerIndices : List (List ℕ) :=
  [[1, 2, 3, 4], [5, 6, 7, 8], [9, 10, 11, 12], [13, 14, 15, 16],
   [17, 18, 19, 20]]

/-- The inner joints-length loop of `calculateFingerExtensions`: sum of the
consecutive joint-to-joint distances of one finger. -/
def jointsLengthOf (landmarks : List Point3D) (finger : List ℕ) : ℝ :=
  ((finger.zip finger.tail).map (fun ab =>
    distance3D (landmarks.getD ab.1 Point3D.zero)
      (landmarks.getD ab.2 Point3D.zero))).sum

/-- The per-finger body of `calculateFingerExtensions`. -/
def fingerExtensionOf (landmarks : List Point3D) (finger : List ℕ) : ℝ :=
  let base := landmarks.getD (finger.getD 0 0) Point3D.zero
  let tip := landmarks.getD (finger.getD 3 0) Point3D.zero
  let maxLength := distance3D base tip
  let jointsLength := jointsLengthOf landmarks finger
  min (maxLength / (jointsLength + 0.001)) 1.0

/-- `calculateFingerExtensions` of `GestureDetector.ts` (identical in both
iterations). -/
def calculateFingerExtensions (landmarks : List Point3D) : List ℝ :=
  fingerIndices.map (fingerExtensionOf landmarks)

/-- The per-finger weights of `matchFingerExtensionPattern`. -/
def weights : List ℝ := [0.8, 1.2, 1.2, 1.0, 1.2]

/-- `matchFingerExtensionPattern` of `GestureDetector.ts` (identical in both
iterations); returns the score field of its result object. -/
def matchFingerExtensionPattern (extensions gesturePattern : List ℝ) : ℝ :=
  if extensions.length ≠ gesturePattern.length then 0
  else
    let matchScore := ((List.range extensions.length).map (fun i =>
      (1 - min |extensions.getD i 0 - gesturePattern.getD i 0| 1) *
        weights.getD i 0)).sum
    let totalWeight := ((List.range extensions.length).map
      (fun i => weights.getD i 0)).sum
    min (matchScore / totalWeight * 1.15) 1.0

/-- Result object `{ isMatch, score }` of `matchGesture`. -/
structure MatchResult where
  isMatch : Bool
  score : ℝ

/-- `matchGesture` of `src/src/utils/GestureDetector.ts` (lines 604-644).
`active` is the detector's `activeMotionPattern` field. -/
def matchGesture (active : Option MotionPattern) (pose : HandPose)
    (gesture : Gesture) : MatchResult :=
  if gesture.handRequired ≠ HandRequired.any ∧
      gesture.handRequired ≠ handednessToReq pose.handedness then
    ⟨false, 0⟩
  else if isMotionTyped gesture then
    if active = gesture.motionPattern then ⟨true, 0.9⟩ else ⟨false, 0⟩
  else if pose.landmarks.length < 21 then ⟨false, 0⟩
  else
    let palmCenter := calculatePalmCenter pose
    let normalizedLandmarks := pose.landmarks.map (fun p =>
      (⟨p.x - palmCenter.x, p.y - palmCenter.y, p.z - palmCenter.z⟩ : Point3D))
    let fingerExtensions := calculateFingerExtensions normalizedLandmarks
    let s := matchFingerExtensionPattern fingerExtensions
      gesture.fingerPositions
    ⟨decide (s > gesture.threshold), s⟩

/-- `gestureCooldownMs` of `src/src/utils/GestureDetector.ts` (line 38). -/
def gestureCooldownMs : ℝ := 300

/-- `noGestureCooldown` local constant of `detectGestures` (line 573). -/
def noGestureCooldown : ℝ := 500

/-- The debounce fields of the detector that `detectGestures` reads and
writes: `lastDetectedGesture` and `lastGestureTime`. -/
structure EmissionState where
  lastDetectedGesture : Option String
  lastGestureTime : ℝ

/-- One iteration of the best-match selection loop of `detectGestures`
(`src/src/utils/GestureDetector.ts` lines 534-545): keep the current best
unless this gesture matches with a strictly higher score (or there is no
best yet). -/
def selStep (active : Option MotionPattern) (pose : HandPose)
    (best : Option (Gesture × ℝ)) (g : Gesture) : Option (Gesture × ℝ) :=
  let m := matchGesture active pose g
  if m.isMatch = true then
    match best with
    | none => some (g, m.score)
    | some b => if m.score > b.2 then some (g, m.score) else best
  else best

/-- The best-match selection loop of `detectGestures`
(`src/src/utils/GestureDetector.ts` lines 533-545): fold over the
registered gestures keeping the strictly highest-scoring match. -/
def selectBestMatch (active : Option MotionPattern) (pose : HandPose)
    (gestures : List Gesture) : Option (Gesture × ℝ) :=
  gestures.foldl (selStep active pose) none

/-- `detectGestures` of `src/src/utils/GestureDetector.ts` (lines 529-578):
selection plus debounce.  Returns the emitted event (gesture and score), if
any, together with the updated debounce state.  The gesture-detected
callback is assumed to be registered (an event is "emitted" by invoking
it); `now` is the `Date.now()` reading taken at the top of the method. -/
def detectGestures (gestures : List Gesture) (active : Option MotionPattern)
    (st : EmissionState) (pose : HandPose) (now : ℝ) :
    Option (Gesture × ℝ) × EmissionState :=
  match selectBestMatch active pose gestures with
  | some (g, s) =>
    let isSameGesture := st.lastDetectedGesture = some g.id
    if isSameGesture ∨
        (st.lastDetectedGesture ≠ some g.id ∧
          now - st.lastGestureTime > gestureCooldownMs) then
      (some (g, s), ⟨some g.id, now⟩)
    else (none, st)
  | none =>
    if st.lastDetectedGesture ≠ none ∧
        now - st.lastGestureTime > noGestureCooldown then
      (none, ⟨none, st.lastGestureTime⟩)
    else (none, st)

/-- `history.slice(-n)` of JavaScript for `n ≥ 1`: the last `n` elements
(all of them when fewer than `n` are present). -/
def sliceLast (n : ℕ) (l : List HandPose) : List HandPose :=
  l.drop (l.length - n)

/-- Placeholder pose used as the (never relevant) `List.getD` default when
the embedding reads the pose buffer at an in-bounds index. -/
def defaultPose : HandPose := ⟨0, [], Handedness.right, 0⟩

/-- Placeholder gesture used as the (never relevant) `List.getD` default
when the embedding reads a step list at an in-bounds index. -/
def defaultGesture : Gesture :=
  ⟨"", "", 0, [], none, HandRequired.any⟩

/-- The inner step loop of `matchSequence` (lines 669-681): walk the
sequence steps from buffer position `p`, failing the whole window as soon
as one step's match fails (the `break`), otherwise accumulating the sum of
the per-step scores. -/
def windowStepsScore (active : Option MotionPattern) (recent : List HandPose) :
    List Gesture → ℕ → Option ℝ
  | [], _ => some 0
  | g :: gs, p =>
    let m := matchGesture active (recent.getD p defaultPose) g
    if m.isMatch = true then
      Option.map (fun r => m.score + r) (windowStepsScore active recent gs (p + 1))
    else none

/-- The per-offset body of the sliding-window loop of `matchSequence`
(lines 665-690): on an all-steps match compare the mean score with the
best so far. -/
def seqFoldStep (active : Option MotionPattern) (recent : List HandPose)
    (steps : List Gesture) (acc : Bool × ℝ) (i : ℕ) : Bool × ℝ :=
  match windowStepsScore active recent steps i with
  | some s =>
    let avgScore := s / steps.length
    if avgScore > acc.2 then (true, avgScore) else acc
  | none => acc

/-- `matchSequence` of `src/src/utils/GestureDetector.ts` (lines 649-696).
Returns the `(isMatch, score)` pair. -/
def matchSequence (active : Option MotionPattern) (history : List HandPose)
    (sequence : GestureSequence) : Bool × ℝ :=
  if history.length < sequence.gestures.length then (false, 0)
  else
    let recentHistory := sliceLast (sequence.gestures.length * 3) history
    (List.range (recentHistory.length - sequence.gestures.length + 1)).foldl
      (seqFoldStep active recentHistory sequence.gestures) (false, 0)

/-! Motion position buffer, activity state machine and motion trajectory
classifiers, from the second detector iteration in `src/unnamed/part_004`
(class beginning at line 501). -/

/-- `Math.atan2 y x`, modelled as the argument of the complex number
`x + y·i`. -/
def atan2 (y x : ℝ) : ℝ := Complex.arg ⟨x, y⟩

/-- `movementThreshold` field (part_004 line 547). -/
def movementThreshold : ℝ := 0.01

/-- `gestureInactivityTimeout` field (part_004 line 545). -/
def gestureInactivityTimeout : ℝ := 500

/-- The motion-tracking fields of the detector (part_004 lines 536-547). -/
structure MotionState where
  motionPositionHistory : List Point3D
  motionTrackingStartTime : ℝ
  lastMotionSampleTime : ℝ
  activeMotionPattern : MotionPattern
  isGestureActive : Bool
  lastSignificantMovement : ℝ

/-- The initial values of the motion-tracking fields (part_004 lines
536-547). -/
def initialMotionState : MotionState :=
  ⟨[], 0, 0, MotionPattern.NONE, false, 0⟩

/-- `resetMotionTracking` of part_004 (lines 979-985).  It does not touch
`lastMotionSampleTime`. -/
def resetMotionTracking (st : MotionState) : MotionState :=
  { st with
    motionPositionHistory := []
    motionTrackingStartTime := 0
    activeMotionPattern := MotionPattern.NONE
    isGestureActive := false
    lastSignificantMovement := 0 }

/-- Accumulator of the angular-change loop of `detectCircularMotion`:
total angular change, clockwise count, counterclockwise count. -/
structure CircularAcc where
  totalAngularChange : ℝ
  clockwiseCount : ℕ
  counterClockwiseCount : ℕ

/-- One step of the angular-change loop of `detectCircularMotion`
(part_004 lines 1085-1097), on a consecutive pair of angles. -/
def circularAngleStep (acc : CircularAcc) (ab : ℝ × ℝ) : CircularAcc :=
  let change0 := ab.2 - ab.1
  let change1 := if change0 > Real.pi then change0 - 2 * Real.pi else change0
  let change := if change1 < -Real.pi then change1 + 2 * Real.pi else change1
  let acc1 := { acc with totalAngularChange := acc.totalAngularChange + change }
  let acc2 := if change > 0 then
    { acc1 with clockwiseCount := acc1.clockwiseCount + 1 } else acc1
  if change < 0 then
    { acc2 with counterClockwiseCount := acc2.counterClockwiseCount + 1 }
  else acc2

/-- `detectCircularMotion` of part_004 (lines 1054-1157).  Returns the
`(detected, clockwise)` pair.  When no step bears a direction, the
direction-consistency quotient is JavaScript `NaN` and the `> 0.55`
comparison is false; in the real model the quotient is `0/0 = 0` and the
comparison is false as well. -/
def detectCircularMotion (history : List Point3D) : Bool × Bool :=
  if history.length < 5 then (false, false)
  else
    let centerX := (history.map (fun p => p.x)).sum / history.length
    let centerY := (history.map (fun p => p.y)).sum / history.length
    let angles := history.map (fun p => atan2 (p.y - centerY) (p.x - centerX))
    let acc := (angles.zip angles.tail).foldl circularAngleStep ⟨0, 0, 0⟩
    let avgRadius := (history.map (fun p =>
      Real.sqrt ((p.x - centerX) * (p.x - centerX) +
        (p.y - centerY) * (p.y - centerY)))).sum / history.length
    let avgDeviation := (history.map (fun p =>
      |Real.sqrt ((p.x - centerX) * (p.x - centerX) +
        (p.y - centerY) * (p.y - centerY)) - avgRadius|)).sum / history.length
    let deviationQuot := avgDeviation / (avgRadius + 0.001)
    let totalPathLength := ((history.zip history.tail).map (fun pq =>
      Real.sqrt ((pq.2.x - pq.1.x) * (pq.2.x - pq.1.x) +
        (pq.2.y - pq.1.y) * (pq.2.y - pq.1.y)))).sum
    let idealCircumference := 2 * Real.pi * avgRadius
    let circularityQuot := totalPathLength / (idealCircumference + 0.001)
    let isCircular := |acc.totalAngularChange| > 1.5 ∧ deviationQuot < 0.5 ∧
      circularityQuot > 0.7 ∧ circularityQuot < 1.3
    let isClockwise := acc.clockwiseCount > acc.counterClockwiseCount
    let directionConsistency :=
      (max acc.clockwiseCount acc.counterClockwiseCount : ℝ) /
        ((acc.clockwiseCount + acc.counterClockwiseCount : ℕ) : ℝ)
    (decide isCircular && decide (directionConsistency > 0.55),
      decide isClockwise)

/-- Accumulator of the segment loop of `detectZigzagMotion`. -/
structure ZigzagAcc where
  horizontalSegments : ℕ
  diagonalSegments : ℕ
  lastDirection : ℝ
  totalMovement : ℝ
  directionChanges : ℕ
  segmentLengths : List ℝ
  currentSegmentLength : ℝ
  segmentDirections : List ℕ

/-- One step of the segment loop of `detectZigzagMotion` (part_004 lines
1181-1213), on a consecutive pair of positions. -/
def zigzagStep (acc : ZigzagAcc) (pq : Point3D × Point3D) : ZigzagAcc :=
  let dx := pq.2.x - pq.1.x
  let dy := pq.2.y - pq.1.y
  let movement := Real.sqrt (dx * dx + dy * dy)
  let currentDirection := atan2 dy dx
  let acc1 := { acc with totalMovement := acc.totalMovement + movement }
  let acc2 :=
    if |dy| < |dx| * 0.4 ∧ movement > 0.01 then
      let acc1a := { acc1 with
        horizontalSegments := acc1.horizontalSegments + 1
        currentSegmentLength := acc1.currentSegmentLength + movement }
      if acc1a.currentSegmentLength > 0.05 then
        { acc1a with segmentDirections := acc1a.segmentDirections ++ [0] }
      else acc1a
    else if |dy| > |dx| * 0.6 ∧ movement > 0.01 then
      let acc1b := { acc1 with diagonalSegments := acc1.diagonalSegments + 1 }
      let acc1c :=
        if acc1b.currentSegmentLength > 0 then
          { acc1b with
            segmentLengths := acc1b.segmentLengths ++ [acc1b.currentSegmentLength]
            currentSegmentLength := 0 }
        else acc1b
      { acc1c with
        currentSegmentLength := movement
        segmentDirections := acc1c.segmentDirections ++ [1] }
    else acc1
  let acc3 :=
    if acc.lastDirection ≠ 0 ∧ |currentDirection - acc.lastDirection| > Real.pi / 2 ∧
        movement > 0.01 then
      { acc2 with directionChanges := acc2.directionChanges + 1 }
    else acc2
  { acc3 with lastDirection := currentDirection }

/-- `detectZigzagMotion` of part_004 (lines 1162-1246). -/
def detectZigzagMotion (history : List Point3D) : Bool :=
  if history.length < 6 then false
  else
    let acc := (history.zip history.tail).foldl zigzagStep ⟨0, 0, 0, 0, 0, [], 0, []⟩
    let patternConsistency :=
      ((acc.segmentDirections.zip acc.segmentDirections.tail).filter
        (fun ab => ab.1 ≠ ab.2)).length
    decide (acc.horizontalSegments ≥ 1) && decide (acc.diagonalSegments ≥ 1) &&
      decide (acc.directionChanges ≥ 1) && decide (acc.totalMovement > 0.15) &&
      decide (patternConsistency ≥ 1)

/-- Accumulator of the speed loop of `detectTwoHandClap`. -/
structure ClapAcc where
  maxVerticalSpeed : ℝ
  lastY : ℝ
  lastTime : ℝ
  verticalMovement : ℝ
  horizontalMovement : ℝ

/-- One step of the speed loop of `detectTwoHandClap` (part_004 lines
1267-1283).  `t` is the detector's `lastMotionSampleTime` field, read anew
as `this.lastMotionSampleTime` at every use inside the loop — so
`timeDiff` is `t - lastTime` where `lastTime` was also set to `t`. -/
def clapStep (t : ℝ) (acc : ClapAcc) (pq : Point3D × Point3D) : ClapAcc :=
  let currentY := pq.2.y
  let currentX := pq.2.x
  let timeDiff := t - acc.lastTime
  let acc1 :=
    if timeDiff > 0 then
      { acc with
        maxVerticalSpeed := max acc.maxVerticalSpeed (|currentY - acc.lastY| / timeDiff)
        verticalMovement := acc.verticalMovement + |currentY - acc.lastY|
        horizontalMovement := acc.horizontalMovement + |currentX - pq.1.x| }
    else acc
  { acc1 with lastY := currentY, lastTime := t }

/-- `detectTwoHandClap` of part_004 (lines 1251-1299).  `t` is the
detector's `lastMotionSampleTime` field. -/
def detectTwoHandClap (history : List Point3D) (t : ℝ) : Bool :=
  if history.length < 4 then false
  else
    let acc := (history.zip history.tail).foldl (clapStep t)
      ⟨0, (history.getD 0 Point3D.zero).y, t, 0, 0⟩
    let movementQuot := acc.verticalMovement / (acc.horizontalMovement + 0.001)
    decide (acc.maxVerticalSpeed > 0.3) && decide (acc.verticalMovement > 0.08) &&
      decide (movementQuot > 1.5)

/-- Accumulator of the peak/valley loop of `detectWShapeMotion`. -/
structure WShapeAcc where
  peaks : ℕ
  valleys : ℕ
  lastY : ℝ
  isRising : Bool
  totalVerticalMovement : ℝ
  lastPeakY : ℝ
  lastValleyY : ℝ
  peakDistances : List ℝ
  peakTimes : List ℝ
  lastPeakTime : ℕ

/-- One step of the peak/valley loop of `detectWShapeMotion` (part_004
lines 1325-1347) at loop index `i`. -/
def wShapeStep (history : List Point3D) (acc : WShapeAcc) (i : ℕ) : WShapeAcc :=
  let currentY := (history.getD i Point3D.zero).y
  let yChange := currentY - acc.lastY
  let acc1 := { acc with
    totalVerticalMovement := acc.totalVerticalMovement + |yChange| }
  let acc2 :=
    if yChange > 0.015 ∧ acc.isRising = false then
      { acc1 with
        valleys := acc1.valleys + 1
        lastValleyY := currentY
        isRising := true }
    else if yChange < -0.015 ∧ acc.isRising = true then
      let acc1a := { acc1 with peaks := acc1.peaks + 1, lastPeakY := currentY }
      let acc1b :=
        if acc1a.peaks > 1 then
          { acc1a with
            peakDistances := acc1a.peakDistances ++ [|acc1a.lastPeakY - acc1a.lastValleyY|]
            peakTimes := acc1a.peakTimes ++ [(i : ℝ) - (acc1a.lastPeakTime : ℝ)] }
        else acc1a
      { acc1b with lastPeakTime := i, isRising := false }
    else acc1
  { acc2 with lastY := currentY }

/-- `detectWShapeMotion` of part_004 (lines 1304-1387). -/
def detectWShapeMotion (history : List Point3D) : Bool :=
  if history.length < 6 then false
  else
    let acc := (List.range' 1 (history.length - 1)).foldl (wShapeStep history)
      ⟨0, 0, (history.getD 0 Point3D.zero).y, false, 0, 0, 0, [], [], 0⟩
    let avgPeakValleyDistance :=
      if acc.peakDistances.length > 0 then
        acc.peakDistances.sum / acc.peakDistances.length
      else 0
    let peakDistanceVariance :=
      if acc.peakDistances.length > 0 then
        ((acc.peakDistances.map (fun d =>
          (d - avgPeakValleyDistance) ^ (2 : ℕ))).sum) / acc.peakDistances.length
      else 0
    let avgPeakTime :=
      if acc.peakTimes.length > 0 then acc.peakTimes.sum / acc.peakTimes.length
      else 0
    let peakTimeVariance :=
      if acc.peakTimes.length > 0 then
        ((acc.peakTimes.map (fun d => (d - avgPeakTime) ^ (2 : ℕ))).sum) /
          acc.peakTimes.length
      else 0
    decide (acc.peaks ≥ 2) && decide (acc.valleys ≥ 1) &&
      decide (acc.totalVerticalMovement > 0.1) &&
      decide (avgPeakValleyDistance > 0.03) &&
      decide (peakDistanceVariance < 0.02) && decide (peakTimeVariance < 10)

/-- Accumulator of the segment loop of `detectVShapeMotion`.  Note that the
source declares `diagonalSegments` but never increments it. -/
structure VShapeAcc where
  diagonalSegments : ℕ
  lastDirection : ℝ
  totalMovement : ℝ
  directionChanges : ℕ

/-- One step of the segment loop of `detectVShapeMotion` (part_004 lines
1407-1425), on a consecutive pair of positions.  The direction-change test
sits inside the diagonal check, and no branch writes `diagonalSegments`. -/
def vShapeStep (acc : VShapeAcc) (pq : Point3D × Point3D) : VShapeAcc :=
  let dx := pq.2.x - pq.1.x
  let dy := pq.2.y - pq.1.y
  let movement := Real.sqrt (dx * dx + dy * dy)
  let currentDirection := atan2 dy dx
  let acc1 := { acc with totalMovement := acc.totalMovement + movement }
  let acc2 :=
    if |dy| > |dx| * 0.4 ∧ movement > 0.01 then
      if acc.lastDirection ≠ 0 ∧
          |currentDirection - acc.lastDirection| > Real.pi / 2 then
        { acc1 with directionChanges := acc1.directionChanges + 1 }
      else acc1
    else acc1
  { acc2 with lastDirection := currentDirection }

/-- `detectVShapeMotion` of part_004 (lines 1392-1438). -/
def detectVShapeMotion (history : List Point3D) : Bool :=
  if history.length < 4 then false
  else
    let acc := (history.zip history.tail).foldl vShapeStep ⟨0, 0, 0, 0⟩
    decide (acc.diagonalSegments ≥ 1) && decide (acc.directionChanges ≥ 1) &&
      decide (acc.totalMovement > 0.1)

/-- `detectMotionPattern` of part_004 (lines 990-1048).  `now` is the
`Date.now()` reading of the hysteresis check on line 1038.  Only the
`activeMotionPattern` field is written. -/
def detectMotionPattern (st : MotionState) (now : ℝ) : MotionState :=
  if st.motionPositionHistory.length < 5 then st
  else
    let circularResult := detectCircularMotion st.motionPositionHistory
    let zigzagResult := detectZigzagMotion st.motionPositionHistory
    let twoHandClapResult :=
      detectTwoHandClap st.motionPositionHistory st.lastMotionSampleTime
    let wShapeResult := detectWShapeMotion st.motionPositionHistory
    let vShapeResult := detectVShapeMotion st.motionPositionHistory
    let newPattern :=
      if circularResult.1 = true then
        if circularResult.2 = true then MotionPattern.CIRCLE_CLOCKWISE
        else MotionPattern.CIRCLE_COUNTERCLOCKWISE
      else if zigzagResult = true then MotionPattern.ZIGZAG
      else if twoHandClapResult = true then MotionPattern.TWO_HAND_CLAP
      else if wShapeResult = true then MotionPattern.W_SHAPE
      else if vShapeResult = true then MotionPattern.V_SHAPE
      else if st.activeMotionPattern ≠ MotionPattern.NONE ∧
          now - st.lastMotionSampleTime > 1500 then MotionPattern.NONE
      else st.activeMotionPattern
    { st with activeMotionPattern := newPattern }

/-- The displacement computed by `trackHandMotion` (part_004 lines
928-932): distance of the sample's wrist from the last buffered
position. -/
def wristMovement (st : MotionState) (pose : HandPose) : ℝ :=
  let wrist := pose.landmarks.getD 0 Point3D.zero
  let lastPos := st.motionPositionHistory.getD
    (st.motionPositionHistory.length - 1) Point3D.zero
  Real.sqrt ((wrist.x - lastPos.x) * (wrist.x - lastPos.x) +
    (wrist.y - lastPos.y) * (wrist.y - lastPos.y) +
    (wrist.z - lastPos.z) * (wrist.z - lastPos.z))

/-- The buffer append of `trackHandMotion` (part_004 lines 956-966): push,
then evict the oldest entry once the size exceeds 20. -/
def fifoCap20 (history : List Point3D) (wrist : Point3D) : List Point3D :=
  let pushed := history ++ [wrist]
  if pushed.length > 20 then pushed.drop 1 else pushed

/-- The `if (hasSignificantMovement)` tail of `trackHandMotion` (part_004
lines 954-973): append the wrist position with FIFO eviction, record the
sample time, and run pattern detection when the gesture is active and at
least 3 samples are buffered. -/
def appendMotionSample (st : MotionState) (wrist : Point3D) (now : ℝ) :
    MotionState :=
  let st1 := { st with
    motionPositionHistory := fifoCap20 st.motionPositionHistory wrist
    lastMotionSampleTime := now }
  if st1.isGestureActive = true ∧ st1.motionPositionHistory.length ≥ 3 then
    detectMotionPattern st1 now
  else st1

/-- `trackHandMotion` of part_004 (lines 919-974).  `now` is the
`Date.now()` reading at the top of the method. -/
def trackHandMotion (st : MotionState) (pose : HandPose) (now : ℝ) :
    MotionState :=
  let wrist := pose.landmarks.getD 0 Point3D.zero
  if st.motionPositionHistory.length > 0 then
    if wristMovement st pose > movementThreshold then
      appendMotionSample
        { st with lastSignificantMovement := now, isGestureActive := true }
        wrist now
    else if now - st.lastSignificantMovement > gestureInactivityTimeout then
      resetMotionTracking { st with isGestureActive := false }
    else st
  else
    appendMotionSample
      { st with lastSignificantMovement := now, isGestureActive := true }
      wrist now

/-- The operations of part_004 that write the motion-tracking fields:
`trackHandMotion` (called once per processed sample), `resetMotionTracking`
(no-hand timeout, and after a motion gesture emission), and the direct
`detectMotionPattern` call of `detectGestures` (part_004 line 1468). -/
inductive DetectorInput
  | track (pose : HandPose) (now : ℝ)
  | reset
  | detect (now : ℝ)

/-- Apply one motion-tracking operation to the motion state. -/
def runInput (st : MotionState) : DetectorInput → MotionState
  | DetectorInput.track pose now => trackHandMotion st pose now
  | DetectorInput.reset => resetMotionTracking st
  | DetectorInput.detect now => detectMotionPattern st now

/-- Run a list of motion-tracking operations from a starting state. -/
def runInputs (st : MotionState) (inputs : List DetectorInput) : MotionState :=
  inputs.foldl runInput st

/-- The registration set of the detector: `registeredGestures` and
`registeredSequences`. -/
structure RegistrationState where
  registeredGestures : List Gesture
  registeredSequences : List GestureSequence

/-- `registerGestures` of `src/src/utils/GestureDetector.ts` (lines 82-85):
replaces the registered gesture list with a copy of the argument. -/
def registerGestures (st : RegistrationState) (gestures : List Gesture) :
    RegistrationState :=
  { st with registeredGestures := gestures }

/-- `registerSequences` of `src/src/utils/GestureDetector.ts` (lines
90-93): replaces the registered sequence list with a copy of the
argument. -/
def registerSequences (st : RegistrationState)
    (sequences : List GestureSequence) : RegistrationState :=
  { st with registeredSequences := sequences }

/-! Characterization predicates used to state the claims (defined from
`matchGesture`, the per-step matcher shared by the emission layer and the
sequence matcher). -/

/-- A window of `steps.length` consecutive buffer entries starting at
offset `i` matches each sequence step against its threshold. -/
def windowFullMatch (active : Option MotionPattern) (recent : List HandPose)
    (steps : List Gesture) (i : ℕ) : Prop :=
  ∀ j, j < steps.length →
    (matchGesture active (recent.getD (i + j) defaultPose)
      (steps.getD j defaultGesture)).isMatch = true

/-- The mean of the per-step match scores of the window at offset `i`. -/
def windowMean (active : Option MotionPattern) (recent : List HandPose)
    (steps : List Gesture) (i : ℕ) : ℝ :=
  (((List.range steps.length).map (fun j =>
    (matchGesture active (recent.getD (i + j) defaultPose)
      (steps.getD j defaultGesture)).score)).sum) / steps.length

/-! Concrete instances used by the witness and counterexample theorems. -/

/-- A pose whose 21 landmarks all sit at the origin: every finger extension
is `0`. -/
def poseZero : HandPose :=
  ⟨0, List.replicate 21 Point3D.zero, Handedness.right, 1⟩

/-- A motion-typed gesture (clockwise circle) with an ordinary
threshold. -/
def gMotion : Gesture :=
  ⟨"fire-circle", "Fire Circle", 0.3, [],
    some MotionPattern.CIRCLE_CLOCKWISE, HandRequired.any⟩

/-- A motion-typed gesture whose registered threshold `0.95` exceeds the
fixed `0.9` motion-match confidence. -/
def gMotionHi : Gesture :=
  ⟨"ice-circle", "Ice Circle", 0.95, [],
    some MotionPattern.CIRCLE_CLOCKWISE, HandRequired.any⟩

/-- A static-typed gesture (closed fist target: all extensions `0`). -/
def gStaticFist : Gesture :=
  ⟨"fist", "Fist", 0.5, [0, 0, 0, 0, 0], none, HandRequired.any⟩

/-- A sequence with a single motion-typed step. -/
def seqOne : GestureSequence := ⟨"s1", "Circle Spell", [gMotion]⟩

/-- A sequence definition whose step list is empty. -/
def seqEmpty : GestureSequence := ⟨"s0", "Empty Spell", []⟩

/-- A registration state holding one (valid) sequence. -/
def reg0 : RegistrationState := ⟨[gMotion], [seqOne]⟩

/-- A pose whose 21 landmarks all sit at `(1, 0, 0)`. -/
def poseOne : HandPose :=
  ⟨0, List.replicate 21 (⟨1, 0, 0⟩ : Point3D), Handedness.right, 1⟩

/-- A motion state with one buffered position (the origin), gesture
active, last significant movement at time `0`. -/
def mStateOne : MotionState :=
  ⟨[Point3D.zero], 0, 0, MotionPattern.NONE, true, 0⟩

/-! ## Theorems -/

/-- `List.getD` on a replicated list returns the replicated element at any
in-bounds index. -/
theorem getD_replicate {α : Type} (a d : α) :
    ∀ (n i : ℕ), i < n → (List.replicate n a).getD i d = a := by
  intro n
  induction n with
  | zero => intro i hi; omega
  | succ m ih =>
    intro i hi
    cases i with
    | zero => rfl
    | succ k => exact ih k (by omega)

/-- The distance of a point from itself is zero. -/
theorem distance3D_self (p : Point3D) : distance3D p p = 0 := by
  simp [distance3D]

/-- Distances are nonnegative. -/
theorem distance3D_nonneg (p q : Point3D) : 0 ≤ distance3D p q :=
  Real.sqrt_nonneg _

/-- The V-shape segment step never changes the `diagonalSegments`
counter (the source declares the counter but never increments it). -/
theorem vShapeStep_diagonalSegments (acc : VShapeAcc) (pq : Point3D × Point3D) :
    (vShapeStep acc pq).diagonalSegments = acc.diagonalSegments := by
  simp only [vShapeStep]
  split
  · split <;> rfl
  · rfl

/-- Folding the V-shape step leaves `diagonalSegments` at its initial
value. -/
theorem vShapeFold_diagonalSegments (l : List (Point3D × Point3D)) :
    ∀ acc : VShapeAcc,
      (l.foldl vShapeStep acc).diagonalSegments = acc.diagonalSegments := by
  induction l with
  | nil => intro acc; rfl
  | cons p t ih =>
    intro acc
    rw [List.foldl_cons, ih, vShapeStep_diagonalSegments]

/-- Claim C8: the V-shape test is positive for some motion position buffer
— REFUTED; the code's `diagonalSegments` counter is never incremented, so
the required `diagonalSegments >= 1` conjunct always fails and
`detectVShapeMotion` returns `false` on every buffer. -/
theorem c8_detectVShapeMotion_never_positive (history : List Point3D) :
    detectVShapeMotion history = false := by
  simp only [detectVShapeMotion]
  split
  · rfl
  · rw [vShapeFold_diagonalSegments]
    simp

/-- When the clap step's accumulator already records the sampling time, the
step only moves `lastY`/`lastTime`: the time difference it computes is
zero, so no speed or movement is accumulated. -/
theorem clapStep_of_lastTime (t : ℝ) (acc : ClapAcc) (pq : Point3D × Point3D)
    (h : acc.lastTime = t) :
    clapStep t acc pq = { acc with lastY := pq.2.y, lastTime := t } := by
  simp only [clapStep, h, sub_self]
  norm_num

/-- Folding the clap step from an accumulator whose `lastTime` equals the
sampling time leaves every accumulated quantity unchanged. -/
theorem clapFold_fields (t : ℝ) (l : List (Point3D × Point3D)) :
    ∀ acc : ClapAcc, acc.lastTime = t →
      (l.foldl (clapStep t) acc).maxVerticalSpeed = acc.maxVerticalSpeed ∧
      (l.foldl (clapStep t) acc).verticalMovement = acc.verticalMovement ∧
      (l.foldl (clapStep t) acc).horizontalMovement = acc.horizontalMovement := by
  induction l with
  | nil => intro acc _; exact ⟨rfl, rfl, rfl⟩
  | cons p tl ih =>
    intro acc h
    rw [List.foldl_cons, clapStep_of_lastTime t acc p h]
    exact ih _ rfl

/-- The two-hand-clap test of part_004 is false on every buffer: its
per-step time difference is the sampling-time field minus itself, hence
zero, so the peak vertical speed stays `0` and the `> 0.3` floor fails. -/
theorem detectTwoHandClap_false (history : List Point3D) (t : ℝ) :
    detectTwoHandClap history t = false := by
  simp only [detectTwoHandClap]
  split
  · rfl
  · rw [(clapFold_fields t (history.zip history.tail)
      ⟨0, (history.getD 0 Point3D.zero).y, t, 0, 0⟩ rfl).1]
    rw [decide_eq_false (by norm_num : ¬((0 : ℝ) > 0.3))]
    simp

/-- Pattern detection never produces `TWO_HAND_CLAP` when the previous
pattern was not `TWO_HAND_CLAP`: the clap branch of the cascade is guarded
by the always-false clap test. -/
theorem detectMotionPattern_ne_clap (st : MotionState) (now : ℝ)
    (h : st.activeMotionPattern ≠ MotionPattern.TWO_HAND_CLAP) :
    (detectMotionPattern st now).activeMotionPattern ≠
      MotionPattern.TWO_HAND_CLAP := by
  simp only [detectMotionPattern]
  split
  · exact h
  · simp only [detectTwoHandClap_false]
    split_ifs <;> simp_all

/-- Pattern detection does not write the buffer or the activity fields. -/
theorem detectMotionPattern_other_fields (st : MotionState) (now : ℝ) :
    (detectMotionPattern st now).motionPositionHistory =
      st.motionPositionHistory ∧
    (detectMotionPattern st now).isGestureActive = st.isGestureActive ∧
    (detectMotionPattern st now).lastMotionSampleTime =
      st.lastMotionSampleTime ∧
    (detectMotionPattern st now).lastSignificantMovement =
      st.lastSignificantMovement := by
  simp only [detectMotionPattern]
  split
  · exact ⟨rfl, rfl, rfl, rfl⟩
  · exact ⟨rfl, rfl, rfl, rfl⟩

/-- Appending a motion sample never produces `TWO_HAND_CLAP`. -/
theorem appendMotionSample_ne_clap (st : MotionState) (wrist : Point3D)
    (now : ℝ) (h : st.activeMotionPattern ≠ MotionPattern.TWO_HAND_CLAP) :
    (appendMotionSample st wrist now).activeMotionPattern ≠
      MotionPattern.TWO_HAND_CLAP := by
  simp only [appendMotionSample]
  split
  · exact detectMotionPattern_ne_clap _ _ h
  · exact h

/-- The tracking step never produces `TWO_HAND_CLAP`. -/
theorem trackHandMotion_ne_clap (st : MotionState) (pose : HandPose)
    (now : ℝ) (h : st.activeMotionPattern ≠ MotionPattern.TWO_HAND_CLAP) :
    (trackHandMotion st pose now).activeMotionPattern ≠
      MotionPattern.TWO_HAND_CLAP := by
  simp only [trackHandMotion]
  split
  · split
    · exact appendMotionSample_ne_clap _ _ _ h
    · split
      · simp [resetMotionTracking]
      · exact h
  · exact appendMotionSample_ne_clap _ _ _ h

/-- Every motion-tracking operation preserves "the active pattern is not
`TWO_HAND_CLAP`". -/
theorem runInput_ne_clap (st : MotionState) (input : DetectorInput)
    (h : st.activeMotionPattern ≠ MotionPattern.TWO_HAND_CLAP) :
    (runInput st input).activeMotionPattern ≠
      MotionPattern.TWO_HAND_CLAP := by
  cases input with
  | track pose now => exact trackHandMotion_ne_clap _ _ _ h
  | reset => simp [runInput, resetMotionTracking]
  | detect now => exact detectMotionPattern_ne_clap _ _ h

/-- Claim C10 (implicit): the two-hand-clap test is false on every possible
motion position buffer — its per-step time difference is the difference of
the same timestamp with itself, so the accumulated peak vertical speed is
always `0` and the positivity condition never holds — and consequently the
active motion pattern is never `TWO_HAND_CLAP` in any state reachable from
the initial one by the motion-tracking operations. -/
theorem c10_two_hand_clap_unreachable :
    (∀ (history : List Point3D) (t : ℝ), detectTwoHandClap history t = false) ∧
    ∀ inputs : List DetectorInput,
      (runInputs initialMotionState inputs).activeMotionPattern ≠
        MotionPattern.TWO_HAND_CLAP := by
  refine ⟨detectTwoHandClap_false, ?_⟩
  have main : ∀ (inputs : List DetectorInput) (st : MotionState),
      st.activeMotionPattern ≠ MotionPattern.TWO_HAND_CLAP →
      (runInputs st inputs).activeMotionPattern ≠
        MotionPattern.TWO_HAND_CLAP := by
    intro inputs
    induction inputs with
    | nil => intro st h; exact h
    | cons a t ih =>
      intro st h
      exact ih _ (runInput_ne_clap st a h)
  intro inputs
  exact main inputs initialMotionState (by simp [initialMotionState])

/-- The FIFO append keeps the buffer at 20 positions or fewer when it was
within the cap before. -/
theorem fifoCap20_length_le (l : List Point3D) (w : Point3D)
    (h : l.length ≤ 20) : (fifoCap20 l w).length ≤ 20 := by
  simp only [fifoCap20]
  split
  · rename_i hgt
    simp only [List.length_drop, List.length_append, List.length_cons,
      List.length_nil] at hgt ⊢
    omega
  · rename_i hle
    simp only [not_lt, List.length_append, List.length_cons,
      List.length_nil] at hle ⊢
    omega

/-- Appending a motion sample updates the buffer by the capped push,
records the sample time, and preserves the activity flag. -/
theorem appendMotionSample_fields (st : MotionState) (wrist : Point3D)
    (now : ℝ) :
    (appendMotionSample st wrist now).motionPositionHistory =
      fifoCap20 st.motionPositionHistory wrist ∧
    (appendMotionSample st wrist now).isGestureActive = st.isGestureActive := by
  simp only [appendMotionSample]
  split
  · exact ⟨(detectMotionPattern_other_fields _ _).1,
      (detectMotionPattern_other_fields _ _).2.1⟩
  · exact ⟨rfl, rfl⟩

/-- Claim C5: the activity state machine.  (a) A sample whose displacement
is below the movement threshold while the inactivity timer exceeds the
500 ms timeout moves the machine to IDLE and clears the buffer entirely;
(b) while active, a single low-movement sample before the timeout causes
no transition at all (the state is unchanged); (c) a sample whose
displacement exceeds the threshold is appended with FIFO eviction, keeping
the buffer at 20 positions or fewer, with the machine (staying) ACTIVE. -/
theorem c5_activity_state_machine (st : MotionState) (pose : HandPose)
    (now : ℝ) :
    (0 < st.motionPositionHistory.length →
      wristMovement st pose < movementThreshold →
      now - st.lastSignificantMovement > gestureInactivityTimeout →
      (trackHandMotion st pose now).motionPositionHistory = [] ∧
      (trackHandMotion st pose now).isGestureActive = false) ∧
    (st.isGestureActive = true →
      0 < st.motionPositionHistory.length →
      wristMovement st pose < movementThreshold →
      now - st.lastSignificantMovement ≤ gestureInactivityTimeout →
      trackHandMotion st pose now = st) ∧
    (0 < st.motionPositionHistory.length →
      wristMovement st pose > movementThreshold →
      (trackHandMotion st pose now).motionPositionHistory =
        fifoCap20 st.motionPositionHistory
          (pose.landmarks.getD 0 Point3D.zero) ∧
      (st.motionPositionHistory.length ≤ 20 →
        (trackHandMotion st pose now).motionPositionHistory.length ≤ 20) ∧
      (trackHandMotion st pose now).isGestureActive = true) := by
  refine ⟨?_, ?_, ?_⟩
  · intro hlen hmov htime
    simp only [trackHandMotion, if_pos hlen,
      if_neg (not_lt.mpr (le_of_lt hmov)), if_pos htime]
    exact ⟨rfl, rfl⟩
  · intro _ hlen hmov htime
    simp only [trackHandMotion, if_pos hlen,
      if_neg (not_lt.mpr (le_of_lt hmov)), if_neg (not_lt.mpr htime)]
  · intro hlen hmov
    simp only [trackHandMotion, if_pos hlen, if_pos hmov]
    refine ⟨(appendMotionSample_fields _ _ _).1, ?_, ?_⟩
    · intro hcap
      rw [(appendMotionSample_fields _ _ _).1]
      exact fifoCap20_length_le _ _ hcap
    · exact (appendMotionSample_fields _ _ _).2

/-- The displacement of `poseZero`'s wrist from the buffered origin is
zero. -/
theorem wristMovement_mStateOne_poseZero :
    wristMovement mStateOne poseZero = 0 := by
  have hw : poseZero.landmarks.getD 0 Point3D.zero = Point3D.zero :=
    getD_replicate _ _ 21 0 (by norm_num)
  simp only [wristMovement, mStateOne]
  rw [hw]
  norm_num [Point3D.zero, Real.sqrt_zero]

/-- The displacement of `poseOne`'s wrist from the buffered origin is
one. -/
theorem wristMovement_mStateOne_poseOne :
    wristMovement mStateOne poseOne = 1 := by
  have hw : poseOne.landmarks.getD 0 Point3D.zero = (⟨1, 0, 0⟩ : Point3D) :=
    getD_replicate _ _ 21 0 (by norm_num)
  simp only [wristMovement, mStateOne]
  rw [hw]
  norm_num [Point3D.zero, Real.sqrt_one]

/-- Witness for C5: each clause of the state-machine theorem instantiated
at a concrete state, pose and clock reading. -/
theorem c5_witness :
    ((trackHandMotion mStateOne poseZero 600).motionPositionHistory = [] ∧
      (trackHandMotion mStateOne poseZero 600).isGestureActive = false) ∧
    trackHandMotion mStateOne poseZero 100 = mStateOne ∧
    ((trackHandMotion mStateOne poseOne 50).motionPositionHistory =
        fifoCap20 mStateOne.motionPositionHistory
          (poseOne.landmarks.getD 0 Point3D.zero) ∧
      (trackHandMotion mStateOne poseOne 50).motionPositionHistory.length ≤ 20 ∧
      (trackHandMotion mStateOne poseOne 50).isGestureActive = true) := by
  refine ⟨?_, ?_, ?_⟩
  · exact (c5_activity_state_machine mStateOne poseZero 600).1
      (by norm_num [mStateOne])
      (by rw [wristMovement_mStateOne_poseZero]; norm_num [movementThreshold])
      (by norm_num [mStateOne, gestureInactivityTimeout])
  · exact (c5_activity_state_machine mStateOne poseZero 100).2.1 rfl
      (by norm_num [mStateOne])
      (by rw [wristMovement_mStateOne_poseZero]; norm_num [movementThreshold])
      (by norm_num [mStateOne, gestureInactivityTimeout])
  · have h := (c5_activity_state_machine mStateOne poseOne 50).2.2
      (by norm_num [mStateOne])
      (by rw [wristMovement_mStateOne_poseOne]; norm_num [movementThreshold])
    exact ⟨h.1, h.2.1 (by norm_num [mStateOne]), h.2.2⟩

/-- The joints length of a finger is a sum of distances, hence
nonnegative. -/
theorem jointsLengthOf_nonneg (landmarks : List Point3D) (finger : List ℕ) :
    0 ≤ jointsLengthOf landmarks finger := by
  refine List.sum_nonneg ?_
  intro x hx
  simp only [List.mem_map] at hx
  obtain ⟨ab, _, rfl⟩ := hx
  exact distance3D_nonneg _ _

/-- Each finger extension value lies in `[0, 1]`. -/
theorem fingerExtensionOf_bounds (landmarks : List Point3D)
    (finger : List ℕ) :
    0 ≤ fingerExtensionOf landmarks finger ∧
      fingerExtensionOf landmarks finger ≤ 1 := by
  constructor
  · refine le_min ?_ (by norm_num)
    refine div_nonneg (distance3D_nonneg _ _) ?_
    have := jointsLengthOf_nonneg landmarks finger
    linarith
  · have hm : fingerExtensionOf landmarks finger ≤ (1.0 : ℝ) :=
      min_le_right _ _
    exact le_trans hm (by norm_num)

/-- Unfolding of the per-finger extension on a four-index finger list. -/
theorem fingerExtensionOf_eval (landmarks : List Point3D) (a b c d : ℕ) :
    fingerExtensionOf landmarks [a, b, c, d] =
      min (distance3D (landmarks.getD a Point3D.zero)
          (landmarks.getD d Point3D.zero) /
        (distance3D (landmarks.getD a Point3D.zero)
            (landmarks.getD b Point3D.zero) +
          (distance3D (landmarks.getD b Point3D.zero)
              (landmarks.getD c Point3D.zero) +
            (distance3D (landmarks.getD c Point3D.zero)
                (landmarks.getD d Point3D.zero) + 0)) + 0.001)) 1.0 := rfl

/-- Claim C6: on a sample with exactly 21 landmarks the Finger Extension
Extractor returns exactly 5 values; the value of each finger is
`min(maxLength / (jointsLength + 0.001), 1)` over that finger's canonical
landmark indices; and every value lies in `[0, 1]`. -/
theorem c6_finger_extension_extractor (landmarks : List Point3D)
    (h : landmarks.length = 21) :
    (calculateFingerExtensions landmarks).length = 5 ∧
    calculateFingerExtensions landmarks =
      [min (distance3D (landmarks.getD 1 Point3D.zero)
            (landmarks.getD 4 Point3D.zero) /
          (distance3D (landmarks.getD 1 Point3D.zero)
              (landmarks.getD 2 Point3D.zero) +
            distance3D (landmarks.getD 2 Point3D.zero)
              (landmarks.getD 3 Point3D.zero) +
            distance3D (landmarks.getD 3 Point3D.zero)
              (landmarks.getD 4 Point3D.zero) + 0.001)) 1,
        min (distance3D (landmarks.getD 5 Point3D.zero)
            (landmarks.getD 8 Point3D.zero) /
          (distance3D (landmarks.getD 5 Point3D.zero)
              (landmarks.getD 6 Point3D.zero) +
            distance3D (landmarks.getD 6 Point3D.zero)
              (landmarks.getD 7 Point3D.zero) +
            distance3D (landmarks.getD 7 Point3D.zero)
              (landmarks.getD 8 Point3D.zero) + 0.001)) 1,
        min (distance3D (landmarks.getD 9 Point3D.zero)
            (landmarks.getD 12 Point3D.zero) /
          (distance3D (landmarks.getD 9 Point3D.zero)
              (landmarks.getD 10 Point3D.zero) +
            distance3D (landmarks.getD 10 Point3D.zero)
              (landmarks.getD 11 Point3D.zero) +
            distance3D (landmarks.getD 11 Point3D.zero)
              (landmarks.getD 12 Point3D.zero) + 0.001)) 1,
        min (distance3D (landmarks.getD 13 Point3D.zero)
            (landmarks.getD 16 Point3D.zero) /
          (distance3D (landmarks.getD 13 Point3D.zero)
              (landmarks.getD 14 Point3D.zero) +
            distance3D (landmarks.getD 14 Point3D.zero)
              (landmarks.getD 15 Point3D.zero) +
            distance3D (landmarks.getD 15 Point3D.zero)
              (landmarks.getD 16 Point3D.zero) + 0.001)) 1,
        min (distance3D (landmarks.getD 17 Point3D.zero)
            (landmarks.getD 20 Point3D.zero) /
          (distance3D (landmarks.getD 17 Point3D.zero)
              (landmarks.getD 18 Point3D.zero) +
            distance3D (landmarks.getD 18 Point3D.zero)
              (landmarks.getD 19 Point3D.zero) +
            distance3D (landmarks.getD 19 Point3D.zero)
              (landmarks.getD 20 Point3D.zero) + 0.001)) 1] ∧
    ∀ e ∈ calculateFingerExtensions landmarks, 0 ≤ e ∧ e ≤ 1 := by
  refine ⟨rfl, ?_, ?_⟩
  · simp only [calculateFingerExtensions, fingerIndices, List.map_cons,
      List.map_nil, fingerExtensionOf_eval, List.cons.injEq, and_true]
    refine ⟨?_, ?_, ?_, ?_, ?_⟩ <;> ring_nf
  · intro e he
    simp only [calculateFingerExtensions, List.mem_map] at he
    obtain ⟨f, _, rfl⟩ := he
    exact fingerExtensionOf_bounds landmarks f

/-- Witness for C6: the extractor applied to a concrete 21-landmark
sample. -/
theorem c6_witness :
    (calculateFingerExtensions poseZero.landmarks).length = 5 ∧
    ∀ e ∈ calculateFingerExtensions poseZero.landmarks, 0 ≤ e ∧ e ≤ 1 := by
  have h := c6_finger_extension_extractor poseZero.landmarks
    (by simp [poseZero])
  exact ⟨h.1, h.2.2⟩

/-- Raw unfolding of the static pose score on five-element vectors (the
shape the fold of the source loop produces). -/
theorem matchFEP_raw (e0 e1 e2 e3 e4 t0 t1 t2 t3 t4 : ℝ) :
    matchFingerExtensionPattern [e0, e1, e2, e3, e4] [t0, t1, t2, t3, t4] =
      min (((1 - min |e0 - t0| 1) * 0.8 +
          ((1 - min |e1 - t1| 1) * 1.2 +
            ((1 - min |e2 - t2| 1) * 1.2 +
              ((1 - min |e3 - t3| 1) * 1.0 +
                ((1 - min |e4 - t4| 1) * 1.2 + 0))))) /
        (0.8 + (1.2 + (1.2 + (1.0 + (1.2 + 0))))) * 1.15) 1.0 := rfl

/-- Claim C7: the static pose match score on 5-element vectors is the
weighted per-finger score `1 − min(|actual − target|, 1)` with weights
`[0.8, 1.2, 1.2, 1.0, 1.2]`, summed, normalized by the total weight,
multiplied by `1.15` and clamped at `1.0`; and (for a static-typed gesture
with agreeing handedness and 21 landmarks) the match succeeds exactly when
this score strictly exceeds the gesture's threshold. -/
theorem c7_static_pose_matcher :
    (∀ e0 e1 e2 e3 e4 t0 t1 t2 t3 t4 : ℝ,
      matchFingerExtensionPattern [e0, e1, e2, e3, e4] [t0, t1, t2, t3, t4] =
        min (((1 - min |e0 - t0| 1) * 0.8 + (1 - min |e1 - t1| 1) * 1.2 +
            (1 - min |e2 - t2| 1) * 1.2 + (1 - min |e3 - t3| 1) * 1 +
            (1 - min |e4 - t4| 1) * 1.2) /
          (0.8 + 1.2 + 1.2 + 1 + 1.2) * 1.15) 1) ∧
    ∀ (active : Option MotionPattern) (pose : HandPose) (g : Gesture),
      (g.handRequired = HandRequired.any ∨
        g.handRequired = handednessToReq pose.handedness) →
      isMotionTyped g = false →
      21 ≤ pose.landmarks.length →
      ((matchGesture active pose g).isMatch = true ↔
        (matchGesture active pose g).score > g.threshold) := by
  constructor
  · intro e0 e1 e2 e3 e4 t0 t1 t2 t3 t4
    rw [matchFEP_raw]
    norm_num
    ring_nf
  · intro active pose g hhand hmotion hlen
    have hcond : ¬(g.handRequired ≠ HandRequired.any ∧
        g.handRequired ≠ handednessToReq pose.handedness) := by
      rcases hhand with h1 | h1 <;> simp [h1]
    simp only [matchGesture, if_neg hcond, hmotion, Bool.false_eq_true,
      if_false, if_neg (not_lt.mpr hlen)]
    exact decide_eq_true_iff

/-- Witness for C7: the score formula at the all-zero vectors, and the
match-iff-threshold equivalence at a concrete static gesture and pose. -/
theorem c7_witness :
    (matchFingerExtensionPattern [0, 0, 0, 0, 0] [0, 0, 0, 0, 0] =
      min (((1 - min |(0 : ℝ) - 0| 1) * 0.8 + (1 - min |(0 : ℝ) - 0| 1) * 1.2 +
          (1 - min |(0 : ℝ) - 0| 1) * 1.2 + (1 - min |(0 : ℝ) - 0| 1) * 1 +
          (1 - min |(0 : ℝ) - 0| 1) * 1.2) /
        (0.8 + 1.2 + 1.2 + 1 + 1.2) * 1.15) 1) ∧
    ((matchGesture none poseZero gStaticFist).isMatch = true ↔
      (matchGesture none poseZero gStaticFist).score > gStaticFist.threshold) := by
  constructor
  · exact c7_static_pose_matcher.1 0 0 0 0 0 0 0 0 0 0
  · exact c7_static_pose_matcher.2 none poseZero gStaticFist (Or.inl rfl) rfl
      (by norm_num [poseZero])

/-- Claim C9 (amended): registration performs no validation — either call
always succeeds, wholesale replacing its registration list with the given
one (whatever it contains) and leaving the other list untouched. -/
theorem c9_registration_replaces_wholesale (st : RegistrationState)
    (gestures : List Gesture) (sequences : List GestureSequence) :
    (registerGestures st gestures).registeredGestures = gestures ∧
    (registerGestures st gestures).registeredSequences =
      st.registeredSequences ∧
    (registerSequences st sequences).registeredSequences = sequences ∧
    (registerSequences st sequences).registeredGestures =
      st.registeredGestures :=
  ⟨rfl, rfl, rfl, rfl⟩

/-- Counterexample for C9: registering a configuration holding an empty
sequence definition is not rejected — the empty sequence is installed and
the previously active registration set is replaced. -/
theorem c9_counterexample :
    seqEmpty.gestures = [] ∧
    (registerSequences reg0 [seqEmpty]).registeredSequences = [seqEmpty] ∧
    (registerSequences reg0 [seqEmpty]).registeredSequences ≠
      reg0.registeredSequences := by
  refine ⟨rfl, rfl, ?_⟩
  simp [registerSequences, reg0, seqEmpty, seqOne]

/-- Evaluation: `gMotion` matched against the active clockwise-circle
pattern returns the fixed motion confidence `0.9`. -/
theorem matchGesture_gMotion_eval (pose : HandPose) :
    matchGesture (some MotionPattern.CIRCLE_CLOCKWISE) pose gMotion =
      ⟨true, 0.9⟩ := by
  simp [matchGesture, gMotion, isMotionTyped]

/-- Evaluation: the selection over the single registered gesture
`gMotion`. -/
theorem selectBest_gMotion_eval :
    selectBestMatch (some MotionPattern.CIRCLE_CLOCKWISE) poseZero [gMotion] =
      some (gMotion, 0.9) := by
  simp [selectBestMatch, selStep, matchGesture_gMotion_eval]

/-- Claim C4 (amended): relative to the gesture selected for the current
sample, an event is emitted at `t` iff the gesture id equals the
immediately previously recorded one (a held gesture re-emits every tick),
or it differs and strictly more than `gestureCooldownMs` has elapsed since
the previous emission time. -/
theorem c4_debounce_amended (gestures : List Gesture)
    (active : Option MotionPattern) (st : EmissionState) (pose : HandPose)
    (now : ℝ) (g : Gesture) (s : ℝ)
    (hsel : selectBestMatch active pose gestures = some (g, s)) :
    (detectGestures gestures active st pose now).1 = some (g, s) ↔
      (st.lastDetectedGesture = some g.id ∨
        (st.lastDetectedGesture ≠ some g.id ∧
          now - st.lastGestureTime > gestureCooldownMs)) := by
  simp only [detectGestures, hsel]
  split
  · rename_i hcond
    exact iff_of_true rfl hcond
  · rename_i hcond
    exact iff_of_false (by simp) hcond

/-- Witness for C4: the amended debounce rule at a concrete selection. -/
theorem c4_witness :
    (detectGestures [gMotion] (some MotionPattern.CIRCLE_CLOCKWISE)
        ⟨none, 0⟩ poseZero 1000).1 = some (gMotion, 0.9) ↔
      ((none : Option String) = some gMotion.id ∨
        ((none : Option String) ≠ some gMotion.id ∧
          (1000 : ℝ) - 0 > gestureCooldownMs)) :=
  c4_debounce_amended [gMotion] (some MotionPattern.CIRCLE_CLOCKWISE)
    ⟨none, 0⟩ poseZero 1000 gMotion 0.9 selectBest_gMotion_eval

/-- Counterexample for C4: a different gesture arriving exactly at the
cooldown boundary (elapsed = cooldown, i.e. "at least the cooldown has
elapsed") is NOT emitted — the code requires strictly more than
`gestureCooldownMs`. -/
theorem c4_counterexample :
    selectBestMatch (some MotionPattern.CIRCLE_CLOCKWISE) poseZero [gMotion] =
      some (gMotion, 0.9) ∧
    (some "prev" : Option String) ≠ some gMotion.id ∧
    (300 : ℝ) - 0 ≥ gestureCooldownMs ∧
    (detectGestures [gMotion] (some MotionPattern.CIRCLE_CLOCKWISE)
      ⟨some "prev", 0⟩ poseZero 300).1 = none := by
  refine ⟨selectBest_gMotion_eval, by simp [gMotion],
    by norm_num [gestureCooldownMs], ?_⟩
  simp only [detectGestures, selectBest_gMotion_eval]
  rw [if_neg]
  push_neg
  constructor
  · simp [gMotion]
  · intro _
    norm_num [gestureCooldownMs]

/-- The selection step never discards an existing best: it stays `some`,
and its score never decreases. -/
theorem selStep_mono (active : Option MotionPattern) (pose : HandPose)
    (b : Gesture × ℝ) (g : Gesture) :
    ∃ b2 : Gesture × ℝ,
      selStep active pose (some b) g = some b2 ∧ b.2 ≤ b2.2 := by
  simp only [selStep]
  split
  · split
    · rename_i hgt
      exact ⟨_, rfl, le_of_lt hgt⟩
    · exact ⟨b, rfl, le_refl _⟩
  · exact ⟨b, rfl, le_refl _⟩

/-- Characterization of the selection fold: a produced result is either
the untouched accumulator dominating every match in the list, or a match
from the list whose score strictly exceeds the accumulator and every
earlier match, and is not exceeded by any later match. -/
theorem selFold_spec (active : Option MotionPattern) (pose : HandPose) :
    ∀ (l : List Gesture) (acc : Option (Gesture × ℝ)) (g : Gesture) (s : ℝ),
      l.foldl (selStep active pose) acc = some (g, s) →
      (acc = some (g, s) ∧ ∀ g' ∈ l,
          (matchGesture active pose g').isMatch = true →
          (matchGesture active pose g').score ≤ s) ∨
      (∃ l₁ l₂, l = l₁ ++ g :: l₂ ∧
        matchGesture active pose g = ⟨true, s⟩ ∧
        (∀ b ∈ acc, b.2 < s) ∧
        (∀ g' ∈ l₁, (matchGesture active pose g').isMatch = true →
          (matchGesture active pose g').score < s) ∧
        (∀ g' ∈ l₂, (matchGesture active pose g').isMatch = true →
          (matchGesture active pose g').score ≤ s)) := by
  intro l
  induction l with
  | nil =>
    intro acc g s h
    exact Or.inl ⟨h, by simp⟩
  | cons hd tl ih =>
    intro acc g s h
    rw [List.foldl_cons] at h
    rcases ih (selStep active pose acc hd) g s h with
      ⟨heq, hrest⟩ | ⟨l₁, l₂, hsplit, hmg, hacc, hl₁, hl₂⟩
    · -- the accumulator after the head step is the final result
      by_cases hm : (matchGesture active pose hd).isMatch = true
      · cases hacc0 : acc with
        | none =>
          -- the head became the best, with its own score
          rw [hacc0] at heq
          simp only [selStep, hm, if_pos] at heq
          have hg : hd = g ∧ (matchGesture active pose hd).score = s := by
            constructor
            · exact congrArg Prod.fst (Option.some.injEq _ _ ▸ heq)
            · exact congrArg Prod.snd (Option.some.injEq _ _ ▸ heq)
          refine Or.inr ⟨[], tl, by simp [hg.1], ?_, by simp, by simp, hrest⟩
          have := hg.2
          rw [← hg.1]
          cases hmr : matchGesture active pose hd with
          | mk im sc =>
            rw [hmr] at hm this
            simp only at hm this
            rw [hm, this]
        | some b =>
          rw [hacc0] at heq
          by_cases hgt : (matchGesture active pose hd).score > b.2
          · -- the head strictly improved on the accumulator
            simp only [selStep, hm, if_pos, hgt, if_true] at heq
            have hg : hd = g ∧ (matchGesture active pose hd).score = s := by
              constructor
              · exact congrArg Prod.fst (Option.some.injEq _ _ ▸ heq)
              · exact congrArg Prod.snd (Option.some.injEq _ _ ▸ heq)
            refine Or.inr ⟨[], tl, by simp [hg.1], ?_, ?_, by simp, hrest⟩
            · rw [← hg.1]
              cases hmr : matchGesture active pose hd with
              | mk im sc =>
                have h2 := hg.2
                rw [hmr] at hm h2
                simp only at hm h2
                rw [hm, h2]
            · intro b' hb'
              simp only [hacc0, Option.mem_some_iff] at hb'
              rw [← hb', ← hg.2]
              exact hgt
          · -- the head did not improve: accumulator survives
            simp only [selStep, hm, if_pos, if_neg hgt] at heq
            refine Or.inl ⟨heq, ?_⟩
            intro g' hg' hmatch
            rcases List.mem_cons.mp hg' with hhd | htl
            · subst hhd
              have hb : b = (g, s) := Option.some_injective _ heq
              have := not_lt.mp hgt
              rw [hb] at this
              exact this
            · exact hrest g' htl hmatch
      · -- head does not match: the step is the identity
        have hid : selStep active pose acc hd = acc := by
          simp only [selStep, hm]
          simp
        rw [hid] at heq
        refine Or.inl ⟨heq, ?_⟩
        intro g' hg' hmatch
        rcases List.mem_cons.mp hg' with hhd | htl
        · subst hhd
          exact absurd hmatch hm
        · exact hrest g' htl hmatch
    · -- the final result comes from the tail
      refine Or.inr ⟨hd :: l₁, l₂, by rw [hsplit]; rfl, hmg, ?_, ?_, hl₂⟩
      · intro b hb
        simp only [Option.mem_def] at hb
        subst hb
        obtain ⟨b2, hb2, hle⟩ := selStep_mono active pose b hd
        have := hacc b2 (by simp [hb2])
        exact lt_of_le_of_lt hle this
      · intro g' hg' hmatch
        rcases List.mem_cons.mp hg' with hhd | htl
        · subst hhd
          by_cases hacc0 : ∃ b, acc = some b
          · obtain ⟨b, rfl⟩ := hacc0
            by_cases hgt : (matchGesture active pose g').score > b.2
            · have : selStep active pose (some b) g' =
                  some (g', (matchGesture active pose g').score) := by
                simp only [selStep, hmatch, if_pos, hgt, if_true]
              exact hacc _ (Option.mem_def.mpr this)
            · have : selStep active pose (some b) g' = some b := by
                simp only [selStep, hmatch, if_pos, if_neg hgt]
              have hb := hacc b (by simp [this])
              exact lt_of_le_of_lt (not_lt.mp hgt) hb
          · have hnone : acc = none := by
              cases acc with
              | none => rfl
              | some b => exact absurd ⟨b, rfl⟩ hacc0
            subst hnone
            have : selStep active pose none g' =
                some (g', (matchGesture active pose g').score) := by
              simp only [selStep, hmatch, if_pos]
            exact hacc _ (Option.mem_def.mpr this)
        · exact hl₁ g' htl hmatch

/-- If some registered gesture matches, the selection produces a result. -/
theorem selFold_isSome (active : Option MotionPattern) (pose : HandPose) :
    ∀ (l : List Gesture) (acc : Option (Gesture × ℝ)),
      (acc.isSome = true ∨
        ∃ g' ∈ l, (matchGesture active pose g').isMatch = true) →
      (l.foldl (selStep active pose) acc).isSome = true := by
  intro l
  induction l with
  | nil =>
    intro acc h
    rcases h with h | ⟨g', hg', _⟩
    · exact h
    · exact absurd hg' (List.not_mem_nil g')
  | cons hd tl ih =>
    intro acc h
    rw [List.foldl_cons]
    apply ih
    rcases h with hs | ⟨g', hg', hm⟩
    · left
      cases hacc0 : acc with
      | none => rw [hacc0] at hs; exact absurd hs (by simp)
      | some b =>
        obtain ⟨b2, hb2, _⟩ := selStep_mono active pose b hd
        rw [hb2]
        rfl
    · rcases List.mem_cons.mp hg' with hhd | htl
      · subst hhd
        left
        cases hacc0 : acc with
        | none =>
          have : selStep active pose none g' =
              some (g', (matchGesture active pose g').score) := by
            simp only [selStep, hm, if_pos]
          rw [this]
          rfl
        | some b =>
          obtain ⟨b2, hb2, _⟩ := selStep_mono active pose b g'
          rw [hb2]
          rfl
      · exact Or.inr ⟨g', htl, hm⟩

/-- `List.getD` on a replicated list whose default is the replicated
element always returns that element. -/
theorem getD_replicate_self {α : Type} (n i : ℕ) (a : α) :
    (List.replicate n a).getD i a = a := by
  rcases Nat.lt_or_ge i n with h | h
  · exact getD_replicate a a n i h
  · rw [List.getD_eq_default]
    simpa using h

/-- The palm center of the all-zero pose is the origin. -/
theorem palmCenter_poseZero : calculatePalmCenter poseZero = Point3D.zero := by
  simp only [calculatePalmCenter, poseZero, getD_replicate_self]
  norm_num [Point3D.zero]

/-- The finger extensions of the all-zero landmark list are all zero. -/
theorem calcFE_replicate_zero :
    calculateFingerExtensions (List.replicate 21 Point3D.zero) =
      [0, 0, 0, 0, 0] := by
  simp only [calculateFingerExtensions, fingerIndices, List.map_cons,
    List.map_nil, fingerExtensionOf_eval, getD_replicate_self, distance3D_self,
    List.cons.injEq, and_true]
  norm_num

/-- The static score of the all-zero extension vector against the all-zero
target pattern is the clamped maximum, `1`. -/
theorem matchFEP_zeros :
    matchFingerExtensionPattern [0, 0, 0, 0, 0] [0, 0, 0, 0, 0] = 1 := by
  rw [matchFEP_raw]
  norm_num

/-- Evaluation: the all-zero pose matches the closed-fist static gesture
with the full score `1`. -/
theorem matchGesture_poseZero_fist (active : Option MotionPattern) :
    matchGesture active poseZero gStaticFist = ⟨true, 1⟩ := by
  have hmap : poseZero.landmarks.map (fun p =>
      (⟨p.x - (calculatePalmCenter poseZero).x,
        p.y - (calculatePalmCenter poseZero).y,
        p.z - (calculatePalmCenter poseZero).z⟩ : Point3D)) =
      List.replicate 21 Point3D.zero := by
    rw [palmCenter_poseZero]
    simp only [poseZero, List.map_replicate]
    norm_num [Point3D.zero]
  simp only [matchGesture]
  rw [if_neg (by simp [gStaticFist]),
    if_neg (by simp [isMotionTyped, gStaticFist]),
    if_neg (by simp [poseZero])]
  rw [hmap, calcFE_replicate_zero]
  have hfp : gStaticFist.fingerPositions = [0, 0, 0, 0, 0] := rfl
  rw [hfp, matchFEP_zeros]
  have hd : decide ((1 : ℝ) > gStaticFist.threshold) = true :=
    decide_eq_true (by norm_num [gStaticFist])
  rw [hd]

/-- Evaluation: `gMotionHi` matched against the active clockwise-circle
pattern also returns the fixed `0.9`, although its threshold is `0.95`. -/
theorem matchGesture_gMotionHi_eval (pose : HandPose) :
    matchGesture (some MotionPattern.CIRCLE_CLOCKWISE) pose gMotionHi =
      ⟨true, 0.9⟩ := by
  simp [matchGesture, gMotionHi, isMotionTyped]

/-- Evaluation: the selection over `[gMotion, gStaticFist]` with the
circle pattern active picks the static gesture (score `1 > 0.9`). -/
theorem selectBest_two_eval :
    selectBestMatch (some MotionPattern.CIRCLE_CLOCKWISE) poseZero
      [gMotion, gStaticFist] = some (gStaticFist, 1) := by
  have h1 : selStep (some MotionPattern.CIRCLE_CLOCKWISE) poseZero none
      gMotion = some (gMotion, 0.9) := by
    simp [selStep, matchGesture_gMotion_eval]
  have h2 : selStep (some MotionPattern.CIRCLE_CLOCKWISE) poseZero
      (some (gMotion, 0.9)) gStaticFist = some (gStaticFist, 1) := by
    simp only [selStep, matchGesture_poseZero_fist]
    norm_num
  simp only [selectBestMatch, List.foldl_cons, List.foldl_nil, h1, h2]

/-- Evaluation: the selection over the single registered gesture
`gMotionHi`. -/
theorem selectBest_gMotionHi_eval :
    selectBestMatch (some MotionPattern.CIRCLE_CLOCKWISE) poseZero
      [gMotionHi] = some (gMotionHi, 0.9) := by
  simp [selectBestMatch, selStep, matchGesture_gMotionHi_eval]

/-- Evaluation: with a fresh debounce state, the high-threshold motion
gesture is emitted with the fixed score `0.9`. -/
theorem detectGestures_gMotionHi_emit :
    (detectGestures [gMotionHi] (some MotionPattern.CIRCLE_CLOCKWISE)
      ⟨none, 0⟩ poseZero 1000).1 = some (gMotionHi, 0.9) := by
  have hcond : (none : Option String) = some gMotionHi.id ∨
      ((none : Option String) ≠ some gMotionHi.id ∧
        (1000 : ℝ) - 0 > gestureCooldownMs) :=
    Or.inr ⟨by simp, by norm_num [gestureCooldownMs]⟩
  simp only [detectGestures, selectBest_gMotionHi_eval, if_pos hcond]

/-- Evaluation: with a fresh debounce state, `gMotion` is emitted with the
fixed score `0.9`. -/
theorem detectGestures_gMotion_emit :
    (detectGestures [gMotion] (some MotionPattern.CIRCLE_CLOCKWISE)
      ⟨none, 0⟩ poseZero 1000).1 = some (gMotion, 0.9) := by
  have hcond : (none : Option String) = some gMotion.id ∨
      ((none : Option String) ≠ some gMotion.id ∧
        (1000 : ℝ) - 0 > gestureCooldownMs) :=
    Or.inr ⟨by simp, by norm_num [gestureCooldownMs]⟩
  simp only [detectGestures, selectBest_gMotion_eval, if_pos hcond]

/-- An emitted event always comes from the selection. -/
theorem detectGestures_emit_sel (gestures : List Gesture)
    (active : Option MotionPattern) (st : EmissionState) (pose : HandPose)
    (now : ℝ) (g : Gesture) (s : ℝ)
    (hemit : (detectGestures gestures active st pose now).1 = some (g, s)) :
    selectBestMatch active pose gestures = some (g, s) := by
  cases hsel0 : selectBestMatch active pose gestures with
  | none =>
    simp only [detectGestures, hsel0] at hemit
    split at hemit <;> exact absurd hemit (by simp)
  | some b =>
    simp only [detectGestures, hsel0] at hemit
    split at hemit
    · rw [hemit.symm]
    · exact absurd hemit (by simp)

/-- A match result equal to `⟨true, s⟩` pins down the score: `0.9` for a
motion-typed gesture, strictly above the threshold for a static one. -/
theorem matchGesture_eq_true_elim (active : Option MotionPattern)
    (pose : HandPose) (g : Gesture) (s : ℝ)
    (h : matchGesture active pose g = ⟨true, s⟩) :
    (isMotionTyped g = true → s = 0.9) ∧
    (isMotionTyped g = false → s > g.threshold) := by
  unfold matchGesture at h
  split at h
  · exact absurd (congrArg MatchResult.isMatch h) (by simp)
  · split at h
    · rename_i hmot
      split at h
      · constructor
        · intro _
          exact (congrArg MatchResult.score h).symm
        · intro hfalse
          rw [hmot] at hfalse
          exact absurd hfalse (by simp)
      · exact absurd (congrArg MatchResult.isMatch h) (by simp)
    · rename_i hmot
      split at h
      · exact absurd (congrArg MatchResult.isMatch h) (by simp)
      · constructor
        · intro htrue
          rw [eq_false_of_ne_true hmot] at htrue
          exact absurd htrue (by simp)
        · intro _
          have his := congrArg MatchResult.isMatch h
          have hsc := congrArg MatchResult.score h
          simp only at his hsc
          rw [← hsc]
          exact of_decide_eq_true his

/-- Claim C1 (amended): for every emitted gesture detection event, a
static-typed gesture's score strictly exceeds its registered threshold,
while a motion-typed gesture's score is the fixed confidence `0.9`
regardless of its threshold (so the original claim holds for motion-typed
gestures only when their threshold is below `0.9`). -/
theorem c1_emitted_event_score (gestures : List Gesture)
    (active : Option MotionPattern) (st : EmissionState) (pose : HandPose)
    (now : ℝ) (g : Gesture) (s : ℝ)
    (hemit : (detectGestures gestures active st pose now).1 = some (g, s)) :
    (isMotionTyped g = true → s = 0.9) ∧
    (isMotionTyped g = false → s > g.threshold) := by
  have hsel := detectGestures_emit_sel gestures active st pose now g s hemit
  rcases selFold_spec active pose gestures none g s hsel with ⟨h0, _⟩ | hr
  · exact absurd h0 (by simp)
  · obtain ⟨_, _, _, hmg, _, _, _⟩ := hr
    exact matchGesture_eq_true_elim active pose g s hmg

/-- Witness for C1: the amended statement at a concrete emission of the
motion gesture `gMotion`. -/
theorem c1_witness :
    (isMotionTyped gMotion = true → (0.9 : ℝ) = 0.9) ∧
    (isMotionTyped gMotion = false → (0.9 : ℝ) > gMotion.threshold) :=
  c1_emitted_event_score [gMotion] (some MotionPattern.CIRCLE_CLOCKWISE)
    ⟨none, 0⟩ poseZero 1000 gMotion 0.9 detectGestures_gMotion_emit

/-- Counterexample for C1: a motion-typed gesture registered with
threshold `0.95` is emitted with score `0.9`, which does not exceed its
threshold. -/
theorem c1_counterexample :
    (detectGestures [gMotionHi] (some MotionPattern.CIRCLE_CLOCKWISE)
      ⟨none, 0⟩ poseZero 1000).1 = some (gMotionHi, 0.9) ∧
    ¬((0.9 : ℝ) > gMotionHi.threshold) :=
  ⟨detectGestures_gMotionHi_emit, by norm_num [gMotionHi]⟩

/-- Claim C2 (amended): selection is a single best-score pass across both
gesture types — the selected gesture is a registered match (motion matches
carrying the fixed score `0.9`) whose score strictly exceeds every earlier
match's and is not exceeded by any later match's (first-registered wins
ties) — and whenever some registered gesture matches, something is
selected. -/
theorem c2_selection_best_score_blend (active : Option MotionPattern)
    (pose : HandPose) :
    (∀ (gestures : List Gesture) (g : Gesture) (s : ℝ),
      selectBestMatch active pose gestures = some (g, s) →
      ∃ l₁ l₂, gestures = l₁ ++ g :: l₂ ∧
        matchGesture active pose g = ⟨true, s⟩ ∧
        (∀ g' ∈ l₁, (matchGesture active pose g').isMatch = true →
          (matchGesture active pose g').score < s) ∧
        (∀ g' ∈ l₂, (matchGesture active pose g').isMatch = true →
          (matchGesture active pose g').score ≤ s)) ∧
    (∀ gestures : List Gesture,
      (∃ g' ∈ gestures, (matchGesture active pose g').isMatch = true) →
      (selectBestMatch active pose gestures).isSome = true) := by
  constructor
  · intro gestures g s h
    rcases selFold_spec active pose gestures none g s h with ⟨h0, _⟩ | hr
    · exact absurd h0 (by simp)
    · obtain ⟨l₁, l₂, h1, h2, _, h4, h5⟩ := hr
      exact ⟨l₁, l₂, h1, h2, h4, h5⟩
  · intro gestures hex
    exact selFold_isSome active pose gestures none (Or.inr hex)

/-- Witness for C2: the amended selection characterization at a concrete
single-gesture registration, plus the existence part. -/
theorem c2_witness :
    (∃ l₁ l₂, ([gMotion] : List Gesture) = l₁ ++ gMotion :: l₂ ∧
      matchGesture (some MotionPattern.CIRCLE_CLOCKWISE) poseZero gMotion =
        ⟨true, 0.9⟩ ∧
      (∀ g' ∈ l₁,
        (matchGesture (some MotionPattern.CIRCLE_CLOCKWISE) poseZero
          g').isMatch = true →
        (matchGesture (some MotionPattern.CIRCLE_CLOCKWISE) poseZero
          g').score < 0.9) ∧
      (∀ g' ∈ l₂,
        (matchGesture (some MotionPattern.CIRCLE_CLOCKWISE) poseZero
          g').isMatch = true →
        (matchGesture (some MotionPattern.CIRCLE_CLOCKWISE) poseZero
          g').score ≤ 0.9)) ∧
    (selectBestMatch (some MotionPattern.CIRCLE_CLOCKWISE) poseZero
      [gMotion]).isSome = true := by
  constructor
  · exact (c2_selection_best_score_blend
      (some MotionPattern.CIRCLE_CLOCKWISE) poseZero).1 [gMotion] gMotion 0.9
      selectBest_gMotion_eval
  · exact (c2_selection_best_score_blend
      (some MotionPattern.CIRCLE_CLOCKWISE) poseZero).2 [gMotion]
      ⟨gMotion, by simp, by rw [matchGesture_gMotion_eval]⟩

/-- Counterexample for C2: the first-registered motion-typed gesture
matches its pattern exactly, yet the later static gesture is selected
because its score `1` beats the fixed motion score `0.9` — selection does
not stop at the first exact motion match. -/
theorem c2_counterexample :
    matchGesture (some MotionPattern.CIRCLE_CLOCKWISE) poseZero gMotion =
      ⟨true, 0.9⟩ ∧
    selectBestMatch (some MotionPattern.CIRCLE_CLOCKWISE) poseZero
      [gMotion, gStaticFist] = some (gStaticFist, 1) ∧
    gStaticFist.id ≠ gMotion.id :=
  ⟨matchGesture_gMotion_eval poseZero, selectBest_two_eval,
    by simp [gMotion, gStaticFist]⟩

/-- Unfolds the full-window match on a cons step list. -/
theorem windowFullMatch_cons (active : Option MotionPattern)
    (recent : List HandPose) (g : Gesture) (gs : List Gesture) (p : ℕ) :
    windowFullMatch active recent (g :: gs) p ↔
      ((matchGesture active (recent.getD p defaultPose) g).isMatch = true ∧
        windowFullMatch active recent gs (p + 1)) := by
  constructor
  · intro h
    refine ⟨by simpa using h 0 (by simp), ?_⟩
    intro j hj
    have := h (j + 1) (by simpa using Nat.succ_lt_succ hj)
    rw [show p + (j + 1) = p + 1 + j by omega] at this
    simpa using this
  · rintro ⟨h0, hrest⟩ j hj
    cases j with
    | zero => simpa using h0
    | succ k =>
      have := hrest k (by simpa using hj)
      rw [show p + 1 + k = p + (k + 1) by omega] at this
      simpa using this

/-- Splitting the window score sum on a cons step list. -/
theorem windowSum_cons (active : Option MotionPattern)
    (recent : List HandPose) (g : Gesture) (gs : List Gesture) (p : ℕ) :
    ((List.range (g :: gs).length).map (fun j =>
      (matchGesture active (recent.getD (p + j) defaultPose)
        ((g :: gs).getD j defaultGesture)).score)).sum =
    (matchGesture active (recent.getD p defaultPose) g).score +
      ((List.range gs.length).map (fun j =>
        (matchGesture active (recent.getD (p + 1 + j) defaultPose)
          (gs.getD j defaultGesture)).score)).sum := by
  rw [List.length_cons, List.range_succ_eq_map, List.map_cons, List.sum_cons,
    List.map_map]
  congr 1
  congr 1
  apply List.map_congr_left
  intro j _
  simp only [Function.comp_apply, List.getD_cons_succ, Nat.succ_eq_add_one]
  rw [show p + (j + 1) = p + 1 + j by omega]

/-- The inner window scan returns the sum of the per-step scores exactly
when all steps match, and `none` (whole-window rejection) otherwise. -/
theorem windowStepsScore_spec (active : Option MotionPattern)
    (recent : List HandPose) :
    ∀ (steps : List Gesture) (p : ℕ),
      (windowFullMatch active recent steps p →
        windowStepsScore active recent steps p =
          some (((List.range steps.length).map (fun j =>
            (matchGesture active (recent.getD (p + j) defaultPose)
              (steps.getD j defaultGesture)).score)).sum)) ∧
      (¬ windowFullMatch active recent steps p →
        windowStepsScore active recent steps p = none) := by
  intro steps
  induction steps with
  | nil =>
    intro p
    constructor
    · intro _
      simp [windowStepsScore]
    · intro hn
      exact absurd (fun j hj => absurd hj (Nat.not_lt_zero j)) hn
  | cons g gs ih =>
    intro p
    constructor
    · intro hfull
      obtain ⟨h0, hrest⟩ := (windowFullMatch_cons active recent g gs p).mp hfull
      simp only [windowStepsScore, h0, if_true]
      rw [(ih (p + 1)).1 hrest]
      rw [Option.map_some']
      rw [windowSum_cons]
    · intro hnot
      by_cases h0 : (matchGesture active (recent.getD p defaultPose)
          g).isMatch = true
      · have hrest : ¬ windowFullMatch active recent gs (p + 1) := by
          intro hr
          exact hnot ((windowFullMatch_cons active recent g gs p).mpr ⟨h0, hr⟩)
        simp only [windowStepsScore, h0, if_true]
        rw [(ih (p + 1)).2 hrest]
        rfl
      · simp only [windowStepsScore]
        rw [if_neg h0]

/-- One step of the sliding-window fold never decreases the best score. -/
theorem seqFoldStep_snd_le (active : Option MotionPattern)
    (recent : List HandPose) (steps : List Gesture) (acc : Bool × ℝ) (i : ℕ) :
    acc.2 ≤ (seqFoldStep active recent steps acc i).2 := by
  simp only [seqFoldStep]
  cases h : windowStepsScore active recent steps i with
  | none => exact le_refl _
  | some s =>
    try dsimp only
    split
    · rename_i hgt
      exact le_of_lt hgt
    · exact le_refl _

/-- One step of the sliding-window fold preserves a positive flag. -/
theorem seqFoldStep_fst_true (active : Option MotionPattern)
    (recent : List HandPose) (steps : List Gesture) (acc : Bool × ℝ) (i : ℕ)
    (h : acc.1 = true) :
    (seqFoldStep active recent steps acc i).1 = true := by
  simp only [seqFoldStep]
  cases hw : windowStepsScore active recent steps i with
  | none => exact h
  | some s =>
    try dsimp only
    split
    · rfl
    · exact h

/-- The sliding-window fold never decreases the best score. -/
theorem seqFold_snd_le (active : Option MotionPattern)
    (recent : List HandPose) (steps : List Gesture) :
    ∀ (L : List ℕ) (acc : Bool × ℝ),
      acc.2 ≤ (L.foldl (seqFoldStep active recent steps) acc).2 := by
  intro L
  induction L with
  | nil => intro acc; exact le_refl _
  | cons j t ih =>
    intro acc
    rw [List.foldl_cons]
    exact le_trans (seqFoldStep_snd_le active recent steps acc j) (ih _)

/-- The sliding-window fold preserves a positive flag. -/
theorem seqFold_fst_true (active : Option MotionPattern)
    (recent : List HandPose) (steps : List Gesture) :
    ∀ (L : List ℕ) (acc : Bool × ℝ), acc.1 = true →
      (L.foldl (seqFoldStep active recent steps) acc).1 = true := by
  intro L
  induction L with
  | nil => intro acc h; exact h
  | cons j t ih =>
    intro acc h
    rw [List.foldl_cons]
    exact ih _ (seqFoldStep_fst_true active recent steps acc j h)

/-- Upper bound: the mean of every fully matching offset in the scanned
range is at most the fold's final best score. -/
theorem seqFold_upper (active : Option MotionPattern)
    (recent : List HandPose) (steps : List Gesture) :
    ∀ (L : List ℕ) (acc : Bool × ℝ) (i : ℕ), i ∈ L →
      ∀ s, windowStepsScore active recent steps i = some s →
      s / steps.length ≤
        (L.foldl (seqFoldStep active recent steps) acc).2 := by
  intro L
  induction L with
  | nil =>
    intro acc i hi
    exact absurd hi (List.not_mem_nil i)
  | cons j t ih =>
    intro acc i hi s hs
    rw [List.foldl_cons]
    rcases List.mem_cons.mp hi with rfl | hit
    · have hstep : s / (steps.length : ℝ) ≤
          (seqFoldStep active recent steps acc i).2 := by
        simp only [seqFoldStep, hs]
        try dsimp only
        split
        · exact le_refl _
        · rename_i hngt
          exact not_lt.mp hngt
      exact le_trans hstep (seqFold_snd_le active recent steps t _)
    · exact ih _ i hit s hs

/-- Attainment: the fold either leaves the accumulator untouched, or ends
with a positive flag and the mean score of some fully matching offset of
the scanned range. -/
theorem seqFold_attain (active : Option MotionPattern)
    (recent : List HandPose) (steps : List Gesture) :
    ∀ (L : List ℕ) (acc : Bool × ℝ),
      L.foldl (seqFoldStep active recent steps) acc = acc ∨
      ((L.foldl (seqFoldStep active recent steps) acc).1 = true ∧
        ∃ i ∈ L, ∃ s, windowStepsScore active recent steps i = some s ∧
          (L.foldl (seqFoldStep active recent steps) acc).2 =
            s / steps.length) := by
  intro L
  induction L with
  | nil => intro acc; exact Or.inl rfl
  | cons j t ih =>
    intro acc
    rw [List.foldl_cons]
    rcases ih (seqFoldStep active recent steps acc j) with heq | ⟨h1, i, hi, s, hs, h2⟩
    · cases hw : windowStepsScore active recent steps j with
      | none =>
        have hid : seqFoldStep active recent steps acc j = acc := by
          simp only [seqFoldStep, hw]
        rw [hid] at heq ⊢
        exact Or.inl heq
      | some s =>
        by_cases hgt : s / (steps.length : ℝ) > acc.2
        · have hid : seqFoldStep active recent steps acc j =
              (true, s / steps.length) := by
            simp only [seqFoldStep, hw]
            try dsimp only
            rw [if_pos hgt]
          rw [hid] at heq ⊢
          refine Or.inr ⟨by rw [heq], j, List.mem_cons_self j t, s, hw, ?_⟩
          rw [heq]
        · have hid : seqFoldStep active recent steps acc j = acc := by
            simp only [seqFoldStep, hw]
            try dsimp only
            rw [if_neg hgt]
          rw [hid] at heq ⊢
          exact Or.inl heq
    · exact Or.inr ⟨h1, i, List.mem_cons_of_mem j hi, s, hs, h2⟩

/-- If some offset of the scanned range fully matches with a mean score
exceeding the accumulator's, the fold reports a match. -/
theorem seqFold_true_of_exceeds (active : Option MotionPattern)
    (recent : List HandPose) (steps : List Gesture) :
    ∀ (L : List ℕ) (acc : Bool × ℝ),
      (∃ i ∈ L, ∃ s, windowStepsScore active recent steps i = some s ∧
        s / steps.length > acc.2) →
      (L.foldl (seqFoldStep active recent steps) acc).1 = true := by
  intro L
  induction L with
  | nil =>
    rintro acc ⟨i, hi, _⟩
    exact absurd hi (List.not_mem_nil i)
  | cons j t ih =>
    rintro acc ⟨i, hi, s, hs, hgt⟩
    rw [List.foldl_cons]
    rcases List.mem_cons.mp hi with rfl | hit
    · have hid : seqFoldStep active recent steps acc i =
          (true, s / steps.length) := by
        simp only [seqFoldStep, hs]
        try dsimp only
        rw [if_pos hgt]
      rw [hid]
      exact seqFold_fst_true active recent steps t _ rfl
    · cases hw : windowStepsScore active recent steps j with
      | none =>
        have hid : seqFoldStep active recent steps acc j = acc := by
          simp only [seqFoldStep, hw]
        rw [hid]
        exact ih acc ⟨i, hit, s, hs, hgt⟩
      | some sj =>
        by_cases hgtj : sj / (steps.length : ℝ) > acc.2
        · have hid : seqFoldStep active recent steps acc j =
              (true, sj / steps.length) := by
            simp only [seqFoldStep, hw]
            try dsimp only
            rw [if_pos hgtj]
          rw [hid]
          exact seqFold_fst_true active recent steps t _ rfl
        · have hid : seqFoldStep active recent steps acc j = acc := by
            simp only [seqFoldStep, hw]
            try dsimp only
            rw [if_neg hgtj]
          rw [hid]
          exact ih acc ⟨i, hit, s, hs, hgt⟩

/-- An in-bounds `getD` access returns a list member. -/
theorem getD_mem_of_lt {α : Type} (l : List α) (j : ℕ) (d : α)
    (h : j < l.length) : l.getD j d ∈ l := by
  rw [List.getD_eq_getElem?_getD, List.getElem?_eq_getElem h]
  exact List.getElem_mem h

/-- A matching gesture with a nonnegative threshold has a positive
score. -/
theorem matchGesture_score_pos (active : Option MotionPattern)
    (pose : HandPose) (g : Gesture)
    (h : (matchGesture active pose g).isMatch = true)
    (ht : 0 ≤ g.threshold) : 0 < (matchGesture active pose g).score := by
  have heq : matchGesture active pose g =
      ⟨true, (matchGesture active pose g).score⟩ := by
    cases hm : matchGesture active pose g with
    | mk a b =>
      rw [hm] at h
      simp only at h
      rw [h]
  have helim := matchGesture_eq_true_elim active pose g
    (matchGesture active pose g).score heq
  cases hmt : isMotionTyped g with
  | true =>
    rw [helim.1 hmt]
    norm_num
  | false =>
    exact lt_of_le_of_lt ht (helim.2 hmt)

/-- Claim C3: for a registered sequence of length `k ≥ 1` (with the data
model's nonnegative thresholds) and any pose history, the matcher searches
only the most recent `3k` buffered samples, slides a window of `k`
consecutive samples over them, rejects an offset outright when any step
fails (an offset contributes only when all `k` steps match), reports
`match = true` exactly when at least one offset matches on all `k` steps,
and reports as score the maximum over all fully matching offsets of the
mean of the `k` per-step scores (`0` when there is no match). -/
theorem c3_sequence_matcher (active : Option MotionPattern)
    (history : List HandPose) (sequence : GestureSequence)
    (hk : 1 ≤ sequence.gestures.length)
    (hthr : ∀ g ∈ sequence.gestures, 0 ≤ g.threshold) :
    ((matchSequence active history sequence).1 = true ↔
      ∃ i, i + sequence.gestures.length ≤
          (sliceLast (sequence.gestures.length * 3) history).length ∧
        windowFullMatch active
          (sliceLast (sequence.gestures.length * 3) history)
          sequence.gestures i) ∧
    (∀ i, i + sequence.gestures.length ≤
        (sliceLast (sequence.gestures.length * 3) history).length →
      windowFullMatch active
        (sliceLast (sequence.gestures.length * 3) history)
        sequence.gestures i →
      windowMean active (sliceLast (sequence.gestures.length * 3) history)
        sequence.gestures i ≤ (matchSequence active history sequence).2) ∧
    ((matchSequence active history sequence).1 = true →
      ∃ i, i + sequence.gestures.length ≤
          (sliceLast (sequence.gestures.length * 3) history).length ∧
        windowFullMatch active
          (sliceLast (sequence.gestures.length * 3) history)
          sequence.gestures i ∧
        windowMean active (sliceLast (sequence.gestures.length * 3) history)
          sequence.gestures i = (matchSequence active history sequence).2) ∧
    ((matchSequence active history sequence).1 = false →
      (matchSequence active history sequence).2 = 0) := by
  by_cases hguard : history.length < sequence.gestures.length
  · have hres : matchSequence active history sequence = (false, 0) := by
      simp only [matchSequence, if_pos hguard]
    have hrecle : (sliceLast (sequence.gestures.length * 3) history).length ≤
        history.length := by
      simp [sliceLast]
    have hnooff : ∀ i : ℕ, ¬(i + sequence.gestures.length ≤
        (sliceLast (sequence.gestures.length * 3) history).length) := by
      intro i hle
      omega
    refine ⟨?_, ?_, ?_, ?_⟩
    · rw [hres]
      constructor
      · intro hfalse
        exact absurd hfalse (by simp)
      · rintro ⟨i, hle, _⟩
        exact absurd hle (hnooff i)
    · intro i hle
      exact absurd hle (hnooff i)
    · rw [hres]
      intro hfalse
      exact absurd hfalse (by simp)
    · rw [hres]
      intro _
      rfl
  · have hres : matchSequence active history sequence =
        (List.range
          ((sliceLast (sequence.gestures.length * 3) history).length -
            sequence.gestures.length + 1)).foldl
          (seqFoldStep active
            (sliceLast (sequence.gestures.length * 3) history)
            sequence.gestures) (false, 0) := by
      simp only [matchSequence, if_neg hguard]
    have hlen : sequence.gestures.length ≤
        (sliceLast (sequence.gestures.length * 3) history).length := by
      simp only [sliceLast, List.length_drop]
      omega
    have hmem : ∀ i : ℕ,
        (i ∈ List.range
          ((sliceLast (sequence.gestures.length * 3) history).length -
            sequence.gestures.length + 1)) ↔
        i + sequence.gestures.length ≤
          (sliceLast (sequence.gestures.length * 3) history).length := by
      intro i
      rw [List.mem_range]
      omega
    have hkpos : (0 : ℝ) < (sequence.gestures.length : ℝ) := by
      exact_mod_cast Nat.lt_of_lt_of_le Nat.zero_lt_one hk
    have hpos : ∀ i,
        windowFullMatch active
          (sliceLast (sequence.gestures.length * 3) history)
          sequence.gestures i →
        ∃ s, windowStepsScore active
            (sliceLast (sequence.gestures.length * 3) history)
            sequence.gestures i = some s ∧ 0 < s ∧
          windowMean active
            (sliceLast (sequence.gestures.length * 3) history)
            sequence.gestures i = s / sequence.gestures.length := by
      intro i hfull
      refine ⟨_, (windowStepsScore_spec active _ sequence.gestures i).1 hfull,
        ?_, rfl⟩
      apply List.sum_pos
      · intro x hx
        simp only [List.mem_map, List.mem_range] at hx
        obtain ⟨j, hj, rfl⟩ := hx
        exact matchGesture_score_pos _ _ _ (hfull j hj)
          (hthr _ (getD_mem_of_lt _ j _ hj))
      · simp only [ne_eq, List.map_eq_nil_iff, List.range_eq_nil]
        omega
    have hwss_full : ∀ i s,
        windowStepsScore active
          (sliceLast (sequence.gestures.length * 3) history)
          sequence.gestures i = some s →
        windowFullMatch active
          (sliceLast (sequence.gestures.length * 3) history)
          sequence.gestures i := by
      intro i s hs
      by_contra hnf
      rw [(windowStepsScore_spec active _ sequence.gestures i).2 hnf] at hs
      cases hs
    refine ⟨?_, ?_, ?_, ?_⟩
    · rw [hres]
      constructor
      · intro htrue
        rcases seqFold_attain active _ sequence.gestures _ (false, 0) with
          heq | ⟨_, i, hi, s, hs, _⟩
        · rw [heq] at htrue
          exact absurd htrue (by simp)
        · exact ⟨i, (hmem i).mp hi, hwss_full i s hs⟩
      · rintro ⟨i, hle, hfull⟩
        obtain ⟨s, hs, hspos, _⟩ := hpos i hfull
        apply seqFold_true_of_exceeds
        exact ⟨i, (hmem i).mpr hle, s, hs, div_pos hspos hkpos⟩
    · intro i hle hfull
      obtain ⟨s, hs, _, hmean⟩ := hpos i hfull
      rw [hres, hmean]
      exact seqFold_upper active _ sequence.gestures _ (false, 0) i
        ((hmem i).mpr hle) s hs
    · intro htrue
      rw [hres] at htrue
      rcases seqFold_attain active _ sequence.gestures _ (false, 0) with
        heq | ⟨_, i, hi, s, hs, hsc⟩
      · rw [heq] at htrue
        exact absurd htrue (by simp)
      · have hfull := hwss_full i s hs
        obtain ⟨s2, hs2, _, hmean⟩ := hpos i hfull
        have hss : s2 = s := by
          rw [hs] at hs2
          exact (Option.some.inj hs2).symm
        refine ⟨i, (hmem i).mp hi, hfull, ?_⟩
        rw [hres, hmean, hss, hsc]
    · intro hfalse
      rw [hres] at hfalse ⊢
      rcases seqFold_attain active _ sequence.gestures _ (false, 0) with
        heq | ⟨h1, _⟩
      · rw [heq]
      · rw [h1] at hfalse
        exact absurd hfalse (by simp)

/-- Witness for C3: the match-iff-some-fully-matching-offset clause at a
concrete one-step sequence and history. -/
theorem c3_witness :
    (matchSequence (some MotionPattern.CIRCLE_CLOCKWISE) [poseZero]
        seqOne).1 = true ↔
      ∃ i, i + seqOne.gestures.length ≤
          (sliceLast (seqOne.gestures.length * 3) [poseZero]).length ∧
        windowFullMatch (some MotionPattern.CIRCLE_CLOCKWISE)
          (sliceLast (seqOne.gestures.length * 3) [poseZero])
          seqOne.gestures i :=
  (c3_sequence_matcher (some MotionPattern.CIRCLE_CLOCKWISE) [poseZero]
    seqOne (by norm_num [seqOne])
    (by intro g hg; simp only [seqOne, List.mem_singleton] at hg;
        rw [hg]; norm_num [gMotion])).1

end CursorTng
